import Mathlib

/-!
A shallow embedding of the 6502 emulator core (`src/cpu.cpp`, `src/cpu.hpp`, `src/memory.hpp`)

Conventions of the embedding.

* `U8` and `U16` are the C++ `uint8_t` and `uint16_t`: natural numbers below `2^8` and `2^16`.
  Every C++ expression is computed on the promoted integers (`Nat`, or `Int` where it can be
  negative) and truncated with an explicit `% 2^w` (`toU8`, `toU16`, `toU32`) where the C++
  code converts back to a narrower unsigned type.
* `int` is assumed to be 32 bits wide in two's complement; `toU32` gives the bit pattern of an
  `int`, which is what the bitwise operators of the source act on.
* The object `CPU` holds the registers and the referenced `Memory`; a member function
  `T CPU::f(args)` becomes `f : args → CPU → T × CPU` (or `→ CPU` when it returns `void`,
  or `→ T` when it does not change the object).
* The memory store is a total map on 16-bit positions.  Positions at or above `mem_size`
  are outside the allocated array in the source; `read_byte` and `write_byte` treat them as
  ordinary cells, and `read_byte_checked`, `read_word_checked` make the array bound explicit
  for the statements that depend on it.
* The counters of `CPU::execute` are C++ `int`s: `execute_loop` forms `cycles + cost` on the
  integers and ends in `LoopResult.overflow` when the sum exceeds `INT_MAX`.
* Output on `std::cout` is not part of the state.
-/

namespace Emu6502

/-- The C++ `uint8_t`. -/
abbrev U8 := Fin 256

/-- The C++ `uint16_t`. -/
abbrev U16 := Fin 65536

/-- Conversion of a non-negative integer to `uint8_t`. -/
def toU8 (n : Nat) : U8 := ⟨n % 256, Nat.mod_lt n (by decide)⟩

/-- Conversion of a non-negative integer to `uint16_t`. -/
def toU16 (n : Nat) : U16 := ⟨n % 65536, Nat.mod_lt n (by decide)⟩

/-- The 32-bit two's-complement bit pattern of an `int` (also: conversion to `unsigned int`). -/
def toU32 (i : Int) : Nat := (i % 4294967296).toNat

/-- The `int` value of a C++ comparison or logical negation. -/
def b2i (b : Bool) : Nat := if b then 1 else 0

/-- Flag positions: the anonymous `enum` of `cpu.hpp`. -/
abbrev CARRY_FLAG : Nat := 0
abbrev ZERO_FLAG : Nat := 1
abbrev INTERRUPT_DISABLE : Nat := 2
abbrev DECIMAL_MODE : Nat := 3
abbrev BREAK_COMMAND : Nat := 4
abbrev UNUSED : Nat := 5
abbrev OVERFLOW_FLAG : Nat := 6
abbrev NEGATIVE_FLAG : Nat := 7

abbrev BIT_7_MASK : Nat := 0x80
abbrev BIT_6_MASK : Nat := 0x40
abbrev irqVector : Nat := 0xFFFE

/-- The class `Memory` of `memory.hpp`: a size and the byte array.  `memory` is given on every
16-bit position; the allocated array is the part below `mem_size` (at most 65535 bytes, the
size being a `uint16_t`), and `read_byte_checked` tells the two apart. -/
structure Memory where
  mem_size : U16
  memory : U16 → U8

/-- The data members of the class `CPU`. -/
structure CPU where
  is_little_endian : Int
  PC : U16
  SP : U8
  A : U8
  X : U8
  Y : U8
  processor_status : U8
  mem : Memory

/-- Member function `CPU::write_byte`: `mem->memory[position] = value`. -/
def write_byte (position : U16) (value : U8) (s : CPU) : CPU :=
  { s with mem := { s.mem with memory := fun p => if p = position then value else s.mem.memory p } }

/-- Member function `CPU::read_byte`: `return mem->memory[position]`. -/
def read_byte (position : U16) (s : CPU) : U8 := s.mem.memory position

/-- Member function `CPU::write_word`. -/
def write_word (position : U16) (value : U16) (s : CPU) : CPU :=
  let first_byte : U8 :=
    if s.is_little_endian ≠ 0 then toU8 (value.val &&& 0xff)
    else toU8 ((value.val &&& toU32 (-256)) >>> 8)
  let second_byte : U8 :=
    if s.is_little_endian ≠ 0 then toU8 ((value.val &&& toU32 (-256)) >>> 8)
    else toU8 (value.val &&& 0xff)
  write_byte (toU16 (position.val + 1)) second_byte (write_byte position first_byte s)

/-- Member function `CPU::read_word`. -/
def read_word (position : U16) (s : CPU) : U16 :=
  let first_byte := read_byte position s
  let second_byte := read_byte (toU16 (position.val + 1)) s
  if s.is_little_endian ≠ 0 then toU16 (first_byte.val ||| (second_byte.val <<< 8))
  else toU16 (second_byte.val ||| (first_byte.val <<< 8))

/-- Member function `CPU::set_flag`; `~(1 << flag)` is taken on the 32-bit pattern of the `int`. -/
def set_flag (flag : Nat) (val : Nat) (s : CPU) : CPU :=
  if val ≠ 0 then
    { s with processor_status := toU8 (s.processor_status.val ||| (1 <<< flag)) }
  else
    { s with processor_status := toU8 (s.processor_status.val &&& toU32 (-((1 <<< flag : Nat) : Int) - 1)) }

/-- Member function `CPU::get_flag`: the `int` value of `(processor_status & (1 << flag)) != 0`. -/
def get_flag (flag : Nat) (s : CPU) : Nat :=
  b2i (decide (s.processor_status.val &&& (1 <<< flag) ≠ 0))

/-- Member function `CPU::reset`. -/
def reset (s : CPU) : CPU :=
  { s with PC := toU16 0x0600, A := toU8 0, Y := toU8 0, X := toU8 0, SP := toU8 0xFF,
           processor_status := toU8 0x00 }

/-- Member function `CPU::stack_push`. -/
def stack_push (byte : U8) (s : CPU) : CPU :=
  let s1 := write_byte (toU16 (0x100 + s.SP.val)) byte s
  if s1.SP.val = 0x00 then { s1 with SP := toU8 0xFF }
  else { s1 with SP := toU8 (s1.SP.val - 1) }

/-- Member function `CPU::stack_pop`: returns the byte read and the updated object. -/
def stack_pop (s : CPU) : U8 × CPU :=
  let s1 : CPU := if s.SP.val = 0xFF then { s with SP := toU8 0x00 }
                  else { s with SP := toU8 (s.SP.val + 1) }
  (read_byte (toU16 (0x00 + s1.SP.val)) s1, s1)


/-! ## Addressing modes (`U16 CPU::mode()`): the resolved value and the updated object -/

/-- Member function `CPU::implied`. -/
def implied (s : CPU) : U16 × CPU := (toU16 0, s)

/-- Member function `CPU::accumulator`. -/
def accumulator (s : CPU) : U16 × CPU := (toU16 0, s)

/-- Member function `CPU::immediate`: `return PC++`. -/
def immediate (s : CPU) : U16 × CPU := (s.PC, { s with PC := toU16 (s.PC.val + 1) })

/-- Member function `CPU::absolute`. -/
def absolute (s : CPU) : U16 × CPU :=
  let ea := read_word s.PC s
  (ea, { s with PC := toU16 (s.PC.val + 2) })

/-- Member function `CPU::abs_x`: `return absolute() + X`. -/
def abs_x (s : CPU) : U16 × CPU :=
  let r := absolute s
  (toU16 (r.1.val + r.2.X.val), r.2)

/-- Member function `CPU::abs_y`: `return absolute() + Y`. -/
def abs_y (s : CPU) : U16 × CPU :=
  let r := absolute s
  (toU16 (r.1.val + r.2.Y.val), r.2)

/-- Member function `CPU::inx`. -/
def inx (s : CPU) : U16 × CPU :=
  let s1 : CPU := { s with PC := toU16 (s.PC.val + 1) }
  let r : U16 := toU16 (((read_byte s.PC s).val + s1.X.val) &&& 0xFF)
  (toU16 (((read_byte (toU16 (r.val + 1)) s1).val <<< 8) + (read_byte r s1).val), s1)

/-- Member function `CPU::iny`. -/
def iny (s : CPU) : U16 × CPU :=
  let s1 : CPU := { s with PC := toU16 (s.PC.val + 1) }
  let r : U16 := toU16 (((read_byte s.PC s).val + 1) &&& 0xFF)
  (toU16 (((read_byte (toU16 (r.val + 1)) s1).val <<< 8) + (read_byte r s1).val + s1.Y.val), s1)

/-- Member function `CPU::zero_page`. -/
def zero_page (s : CPU) : U16 × CPU :=
  let ea : U16 := toU16 (read_byte s.PC s).val
  (ea, { s with PC := toU16 (s.PC.val + 1) })

/-- Member function `CPU::zero_x`. -/
def zero_x (s : CPU) : U16 × CPU :=
  let s1 : CPU := { s with PC := toU16 (s.PC.val + 1) }
  (toU16 (((read_byte s.PC s).val + s1.X.val) &&& 0xFF), s1)

/-- Member function `CPU::zero_y`. -/
def zero_y (s : CPU) : U16 × CPU :=
  let s1 : CPU := { s with PC := toU16 (s.PC.val + 1) }
  (toU16 (((read_byte s.PC s).val + s1.Y.val) &&& 0xFF), s1)

/-- Member function `CPU::abs_indirect`. -/
def abs_indirect (s : CPU) : U16 × CPU :=
  let LSB : U16 := read_word s.PC s
  let s1 : CPU := { s with PC := toU16 (s.PC.val + 1) }
  let MSB : U16 := read_word (toU16 (LSB.val + 1)) s1
  (toU16 ((MSB.val <<< 8) + LSB.val), s1)

/-- Member function `CPU::relative`. -/
def relative (s : CPU) : U16 × CPU :=
  let r0 : U16 := toU16 (read_byte s.PC s).val
  let s1 : CPU := { s with PC := toU16 (s.PC.val + 1) }
  let r1 : U16 := if r0.val &&& BIT_7_MASK ≠ 0 then toU16 (r0.val ||| 0xFF00) else r0
  (toU16 (r1.val + s1.PC.val), s1)

/-- Member function `CPU::illegal_mode`. -/
def illegal_mode (s : CPU) : U16 × CPU := (toU16 0, s)

/-! ## Opcode handlers (`void CPU::OPCODE_XXX(U16 in)`) -/

/-- Member function `CPU::OPCODE_ADC`.  In C++ `>` binds tighter than `&`, so `total & 0x0F > 0x09` is
`total & (0x0F > 0x09)`. -/
def OPCODE_ADC (in_ : U16) (s : CPU) : CPU :=
  let m : Nat := (read_byte in_ s).val
  let is_carry : Nat := b2i (decide (get_flag CARRY_FLAG s ≠ 0))
  let total0 : Nat := m + s.A.val + is_carry
  let s1 := set_flag CARRY_FLAG (b2i (decide (total0 > 0xFF))) s
  let dec : Bool := decide (get_flag DECIMAL_MODE s1 ≠ 0)
  let total1 : Nat :=
    if dec ∧ total0 &&& b2i (decide (0x0F > 0x09)) ≠ 0 then total0 + 0x06 else total0
  let s2 := if dec then set_flag CARRY_FLAG (b2i (decide (total1 > 0x99))) s1 else s1
  let total2 : Nat :=
    if dec ∧ total1 &&& b2i (decide (0xF0 > 0x90)) ≠ 0 then total1 + 0x60 else total1
  let is_overflow : Nat :=
    b2i (decide ((s2.A.val ^^^ m) &&& BIT_7_MASK = 0) && decide ((s2.A.val ^^^ total2) &&& BIT_7_MASK ≠ 0))
  let s3 := set_flag OVERFLOW_FLAG is_overflow s2
  let s4 := set_flag NEGATIVE_FLAG (total2 &&& BIT_7_MASK) s3
  let total3 : Nat := total2 &&& 0xFF
  let s5 := set_flag ZERO_FLAG (b2i (decide (total3 = 0))) s4
  { s5 with A := toU8 total3 }

/-- Member function `CPU::OPCODE_AND`. -/
def OPCODE_AND (in_ : U16) (s : CPU) : CPU :=
  let m : U8 := toU8 (s.A.val &&& (read_byte in_ s).val)
  let s1 := set_flag ZERO_FLAG (b2i (decide (m.val = 0))) s
  let s2 := set_flag NEGATIVE_FLAG (m.val &&& BIT_7_MASK) s1
  { s2 with A := m }

/-- Member function `CPU::OPCODE_ASL`. -/
def OPCODE_ASL (in_ : U16) (s : CPU) : CPU :=
  let m0 : U8 := read_byte in_ s
  let s1 := set_flag CARRY_FLAG (m0.val &&& BIT_7_MASK) s
  let m : U8 := toU8 ((m0.val <<< 1) &&& 0xFF)
  let s2 := set_flag ZERO_FLAG (b2i (decide (m.val = 0))) s1
  let s3 := set_flag NEGATIVE_FLAG (m.val &&& BIT_7_MASK) s2
  write_byte in_ m s3

/-- Member function `CPU::OPCODE_ASL_ACC`. -/
def OPCODE_ASL_ACC (_in : U16) (s : CPU) : CPU :=
  let s1 := set_flag CARRY_FLAG (s.A.val &&& BIT_7_MASK) s
  let s2 : CPU := { s1 with A := toU8 ((s1.A.val <<< 1) &&& 0xFF) }
  let s3 := set_flag ZERO_FLAG (b2i (decide (s2.A.val = 0))) s2
  set_flag NEGATIVE_FLAG (s3.A.val &&& BIT_7_MASK) s3

/-- Member function `CPU::OPCODE_BCC`. -/
def OPCODE_BCC (in_ : U16) (s : CPU) : CPU :=
  if get_flag CARRY_FLAG s = 0 then { s with PC := in_ } else s

/-- Member function `CPU::OPCODE_BCS`. -/
def OPCODE_BCS (in_ : U16) (s : CPU) : CPU :=
  if get_flag CARRY_FLAG s ≠ 0 then { s with PC := in_ } else s

/-- Member function `CPU::OPCODE_BEQ`. -/
def OPCODE_BEQ (in_ : U16) (s : CPU) : CPU :=
  if get_flag ZERO_FLAG s ≠ 0 then { s with PC := in_ } else s

/-- Member function `CPU::OPCODE_BIT`. -/
def OPCODE_BIT (in_ : U16) (s : CPU) : CPU :=
  let r : U8 := read_byte in_ s
  let m : U8 := toU8 (s.A.val &&& r.val)
  let s1 := set_flag ZERO_FLAG (b2i (decide (m.val = 0))) s
  let s2 := set_flag OVERFLOW_FLAG (r.val &&& BIT_6_MASK) s1
  set_flag NEGATIVE_FLAG (r.val &&& BIT_7_MASK) s2

/-- Member function `CPU::OPCODE_BMI`. -/
def OPCODE_BMI (in_ : U16) (s : CPU) : CPU :=
  if get_flag NEGATIVE_FLAG s ≠ 0 then { s with PC := in_ } else s

/-- Member function `CPU::OPCODE_BNE`. -/
def OPCODE_BNE (in_ : U16) (s : CPU) : CPU :=
  if get_flag ZERO_FLAG s = 0 then { s with PC := in_ } else s

/-- Member function `CPU::OPCODE_BPL`. -/
def OPCODE_BPL (in_ : U16) (s : CPU) : CPU :=
  if get_flag NEGATIVE_FLAG s = 0 then { s with PC := in_ } else s

/-- Member function `CPU::OPCODE_BRK`. -/
def OPCODE_BRK (_in : U16) (s : CPU) : CPU :=
  let s1 : CPU := { s with PC := toU16 (s.PC.val + 1) }
  let s2 := set_flag BREAK_COMMAND 1 s1
  let s3 := stack_push (toU8 ((s2.PC.val >>> 8) &&& 0xFF)) s2
  let s4 := stack_push (toU8 (s3.PC.val &&& 0xFF)) s3
  let s5 := stack_push s4.processor_status s4
  { s5 with PC := read_word (toU16 irqVector) s5 }

/-- Member function `CPU::OPCODE_BVC`. -/
def OPCODE_BVC (in_ : U16) (s : CPU) : CPU :=
  if get_flag OVERFLOW_FLAG s = 0 then { s with PC := in_ } else s

/-- Member function `CPU::OPCODE_BVS`. -/
def OPCODE_BVS (in_ : U16) (s : CPU) : CPU :=
  if get_flag OVERFLOW_FLAG s ≠ 0 then { s with PC := in_ } else s

/-- Member function `CPU::OPCODE_CLC`. -/
def OPCODE_CLC (_in : U16) (s : CPU) : CPU := set_flag CARRY_FLAG 0 s

/-- Member function `CPU::OPCODE_CLD`. -/
def OPCODE_CLD (_in : U16) (s : CPU) : CPU := set_flag DECIMAL_MODE 0 s

/-- Member function `CPU::OPCODE_CLI`. -/
def OPCODE_CLI (_in : U16) (s : CPU) : CPU := set_flag INTERRUPT_DISABLE 0 s

/-- Member function `CPU::OPCODE_CLV`. -/
def OPCODE_CLV (_in : U16) (s : CPU) : CPU := set_flag OVERFLOW_FLAG 0 s

/-- Member function `CPU::OPCODE_CMP`; `result` is an `int`, possibly negative. -/
def OPCODE_CMP (in_ : U16) (s : CPU) : CPU :=
  let m : U8 := read_byte in_ s
  let s1 := set_flag ZERO_FLAG (b2i (decide (s.A.val = m.val))) s
  let s2 := set_flag CARRY_FLAG (b2i (decide (s1.A.val ≥ m.val))) s1
  let result : Int := (s2.A.val : Int) - (m.val : Int)
  set_flag NEGATIVE_FLAG (toU32 result &&& BIT_7_MASK) s2

/-- Member function `CPU::OPCODE_CPX`. -/
def OPCODE_CPX (in_ : U16) (s : CPU) : CPU :=
  let m : U8 := read_byte in_ s
  let s1 := set_flag ZERO_FLAG (b2i (decide (s.X.val = m.val))) s
  let s2 := set_flag CARRY_FLAG (b2i (decide (s1.X.val ≥ m.val))) s1
  let result : Int := (s2.X.val : Int) - (m.val : Int)
  set_flag NEGATIVE_FLAG (toU32 result &&& BIT_7_MASK) s2

/-- Member function `CPU::OPCODE_CPY`; `result` is an `unsigned int`. -/
def OPCODE_CPY (in_ : U16) (s : CPU) : CPU :=
  let m : U8 := read_byte in_ s
  let s1 := set_flag ZERO_FLAG (b2i (decide (s.Y.val = m.val))) s
  let s2 := set_flag CARRY_FLAG (b2i (decide (s1.Y.val ≥ m.val))) s1
  let result : Nat := toU32 ((s2.Y.val : Int) - (m.val : Int))
  set_flag NEGATIVE_FLAG (result &&& BIT_7_MASK) s2

/-- Member function `CPU::OPCODE_DEC`. -/
def OPCODE_DEC (in_ : U16) (s : CPU) : CPU :=
  let m0 : U8 := read_byte in_ s
  let m : U8 := toU8 (toU32 ((m0.val : Int) - 1) &&& 0xFF)
  let s1 := set_flag ZERO_FLAG (b2i (decide (m.val = 0))) s
  let s2 := set_flag NEGATIVE_FLAG (m.val &&& BIT_7_MASK) s1
  write_byte in_ m s2

/-- Member function `CPU::OPCODE_DEX`. -/
def OPCODE_DEX (_in : U16) (s : CPU) : CPU :=
  let s1 : CPU := { s with X := toU8 (toU32 ((s.X.val : Int) - 1) &&& 0xFF) }
  let s2 := set_flag ZERO_FLAG (b2i (decide (s1.X.val = 0))) s1
  set_flag NEGATIVE_FLAG (s2.X.val &&& BIT_7_MASK) s2

/-- Member function `CPU::OPCODE_DEY`. -/
def OPCODE_DEY (_in : U16) (s : CPU) : CPU :=
  let s1 : CPU := { s with Y := toU8 (toU32 ((s.Y.val : Int) - 1) &&& 0xFF) }
  let s2 := set_flag ZERO_FLAG (b2i (decide (s1.Y.val = 0))) s1
  set_flag NEGATIVE_FLAG (s2.Y.val &&& BIT_7_MASK) s2

/-- Member function `CPU::OPCODE_EOR`. -/
def OPCODE_EOR (in_ : U16) (s : CPU) : CPU :=
  let m : U8 := read_byte in_ s
  let result : U8 := toU8 (m.val ^^^ s.A.val)
  let s1 := set_flag ZERO_FLAG (b2i (decide (result.val = 0))) s
  let s2 := set_flag NEGATIVE_FLAG (result.val &&& BIT_7_MASK) s1
  { s2 with A := result }

/-- Member function `CPU::OPCODE_INC`. -/
def OPCODE_INC (in_ : U16) (s : CPU) : CPU :=
  let m0 : U8 := read_byte in_ s
  let m : U8 := toU8 ((m0.val + 1) &&& 0xFF)
  let s1 := set_flag ZERO_FLAG (b2i (decide (m.val = 0))) s
  let s2 := set_flag NEGATIVE_FLAG (m.val &&& BIT_7_MASK) s1
  write_byte in_ m s2

/-- Member function `CPU::OPCODE_INX`. -/
def OPCODE_INX (_in : U16) (s : CPU) : CPU :=
  let s1 : CPU := { s with X := toU8 ((s.X.val + 1) &&& 0xFF) }
  let s2 := set_flag ZERO_FLAG (b2i (decide (s1.X.val = 0))) s1
  set_flag NEGATIVE_FLAG (s2.X.val &&& BIT_7_MASK) s2

/-- Member function `CPU::OPCODE_INY`. -/
def OPCODE_INY (_in : U16) (s : CPU) : CPU :=
  let s1 : CPU := { s with Y := toU8 ((s.Y.val + 1) &&& 0xFF) }
  let s2 := set_flag ZERO_FLAG (b2i (decide (s1.Y.val = 0))) s1
  set_flag NEGATIVE_FLAG (s2.Y.val &&& BIT_7_MASK) s2

/-- Member function `CPU::OPCODE_JMP`. -/
def OPCODE_JMP (in_ : U16) (s : CPU) : CPU := { s with PC := in_ }

/-- Member function `CPU::OPCODE_JSR`. -/
def OPCODE_JSR (in_ : U16) (s : CPU) : CPU :=
  let s1 : CPU := { s with PC := toU16 (toU32 ((s.PC.val : Int) - 1)) }
  let s2 := stack_push (toU8 ((s1.PC.val >>> 8) &&& 0xFF)) s1
  let s3 := stack_push (toU8 (s2.PC.val &&& 0xFF)) s2
  { s3 with PC := in_ }

/-- Member function `CPU::OPCODE_LDA`. -/
def OPCODE_LDA (in_ : U16) (s : CPU) : CPU :=
  let m : U8 := read_byte in_ s
  let s1 := set_flag ZERO_FLAG (b2i (decide (m.val = 0))) s
  let s2 := set_flag NEGATIVE_FLAG (m.val &&& BIT_7_MASK) s1
  { s2 with A := m }

/-- Member function `CPU::OPCODE_LDX`. -/
def OPCODE_LDX (in_ : U16) (s : CPU) : CPU :=
  let m : U8 := read_byte in_ s
  let s1 := set_flag ZERO_FLAG (b2i (decide (m.val = 0))) s
  let s2 := set_flag NEGATIVE_FLAG (m.val &&& BIT_7_MASK) s1
  { s2 with X := m }

/-- Member function `CPU::OPCODE_LDY`. -/
def OPCODE_LDY (in_ : U16) (s : CPU) : CPU :=
  let m : U8 := read_byte in_ s
  let s1 := set_flag ZERO_FLAG (b2i (decide (m.val = 0))) s
  let s2 := set_flag NEGATIVE_FLAG (m.val &&& BIT_7_MASK) s1
  { s2 with Y := m }

/-- Member function `CPU::OPCODE_LSR`. -/
def OPCODE_LSR (in_ : U16) (s : CPU) : CPU :=
  let m0 : U8 := read_byte in_ s
  let s1 := set_flag CARRY_FLAG (m0.val &&& 0x01) s
  let m : U8 := toU8 ((m0.val >>> 1) &&& 0xFF)
  let s2 := set_flag ZERO_FLAG (b2i (decide (m.val = 0))) s1
  let s3 := set_flag NEGATIVE_FLAG (m.val &&& BIT_7_MASK) s2
  write_byte in_ m s3

/-- Member function `CPU::OPCODE_LSR_ACC`. -/
def OPCODE_LSR_ACC (_in : U16) (s : CPU) : CPU :=
  let s1 := set_flag CARRY_FLAG (s.A.val &&& 0x01) s
  let s2 : CPU := { s1 with A := toU8 ((s1.A.val >>> 1) &&& 0xFF) }
  let s3 := set_flag ZERO_FLAG (b2i (decide (s2.A.val = 0))) s2
  set_flag NEGATIVE_FLAG (s3.A.val &&& BIT_7_MASK) s3

/-- Member function `CPU::OPCODE_NOP`. -/
def OPCODE_NOP (_in : U16) (s : CPU) : CPU := s

/-- Member function `CPU::OPCODE_ORA`. -/
def OPCODE_ORA (in_ : U16) (s : CPU) : CPU :=
  let m0 : U8 := read_byte in_ s
  let m : U8 := toU8 (m0.val ||| s.A.val)
  let s1 := set_flag ZERO_FLAG (b2i (decide (m.val = 0))) s
  let s2 := set_flag NEGATIVE_FLAG (m.val &&& BIT_7_MASK) s1
  { s2 with A := m }

/-- Member function `CPU::OPCODE_PHA`. -/
def OPCODE_PHA (_in : U16) (s : CPU) : CPU := stack_push s.A s

/-- Member function `CPU::OPCODE_PHP`. -/
def OPCODE_PHP (_in : U16) (s : CPU) : CPU := stack_push s.processor_status s

/-- Member function `CPU::OPCODE_PLA`. -/
def OPCODE_PLA (_in : U16) (s : CPU) : CPU :=
  let r := stack_pop s
  let s1 : CPU := { r.2 with A := r.1 }
  let s2 := set_flag ZERO_FLAG (b2i (decide (s1.A.val = 0))) s1
  set_flag NEGATIVE_FLAG (s2.A.val &&& BIT_7_MASK) s2

/-- Member function `CPU::OPCODE_PLP`. -/
def OPCODE_PLP (_in : U16) (s : CPU) : CPU :=
  let r := stack_pop s
  { r.2 with processor_status := r.1 }

/-- Member function `CPU::OPCODE_ROL`. -/
def OPCODE_ROL (in_ : U16) (s : CPU) : CPU :=
  let m0 : U8 := read_byte in_ s
  let carry : U8 := toU8 (m0.val &&& BIT_7_MASK)
  let m1 : U8 := toU8 ((m0.val <<< 1) &&& 0xFF)
  let m : U8 := if get_flag CARRY_FLAG s ≠ 0 then toU8 (m1.val ||| 0x01) else m1
  let s1 := set_flag ZERO_FLAG (b2i (decide (m.val = 0))) s
  let s2 := set_flag NEGATIVE_FLAG (m.val &&& BIT_7_MASK) s1
  let s3 := set_flag CARRY_FLAG carry.val s2
  write_byte in_ m s3

/-- Member function `CPU::OPCODE_ROL_ACC`. -/
def OPCODE_ROL_ACC (_in : U16) (s : CPU) : CPU :=
  let carry : U8 := toU8 (s.A.val &&& BIT_7_MASK)
  let s1 : CPU := { s with A := toU8 ((s.A.val <<< 1) &&& 0xFF) }
  let s2 : CPU := if get_flag CARRY_FLAG s1 ≠ 0 then { s1 with A := toU8 (s1.A.val ||| 0x01) } else s1
  let s3 := set_flag ZERO_FLAG (b2i (decide (s2.A.val = 0))) s2
  let s4 := set_flag NEGATIVE_FLAG (s3.A.val &&& BIT_7_MASK) s3
  set_flag CARRY_FLAG carry.val s4

/-- Member function `CPU::OPCODE_ROR`. -/
def OPCODE_ROR (in_ : U16) (s : CPU) : CPU :=
  let m0 : U8 := read_byte in_ s
  let carry : U8 := toU8 (m0.val &&& 0x01)
  let m1 : U8 := toU8 ((m0.val >>> 1) &&& 0xFF)
  let m : U8 := if get_flag CARRY_FLAG s ≠ 0 then toU8 (m1.val ||| BIT_7_MASK) else m1
  let s1 := set_flag ZERO_FLAG (b2i (decide (m.val = 0))) s
  let s2 := set_flag NEGATIVE_FLAG (m.val &&& BIT_7_MASK) s1
  let s3 := set_flag CARRY_FLAG carry.val s2
  write_byte in_ m s3

/-- Member function `CPU::OPCODE_ROR_ACC`. -/
def OPCODE_ROR_ACC (_in : U16) (s : CPU) : CPU :=
  let carry : U8 := toU8 (s.A.val &&& 0x01)
  let s1 : CPU := { s with A := toU8 ((s.A.val >>> 1) &&& 0xFF) }
  let s2 : CPU := if get_flag CARRY_FLAG s1 ≠ 0 then { s1 with A := toU8 (s1.A.val ||| BIT_7_MASK) } else s1
  let s3 := set_flag ZERO_FLAG (b2i (decide (s2.A.val = 0))) s2
  let s4 := set_flag NEGATIVE_FLAG (s3.A.val &&& BIT_7_MASK) s3
  set_flag CARRY_FLAG carry.val s4

/-- Member function `CPU::OPCODE_RTI`. -/
def OPCODE_RTI (_in : U16) (s : CPU) : CPU :=
  let r1 := stack_pop s
  let s1 : CPU := { r1.2 with processor_status := toU8 (r1.1.val ||| (1 <<< BREAK_COMMAND)) }
  let r2 := stack_pop s1
  let l : U8 := r2.1
  let r3 := stack_pop r2.2
  let h : U8 := r3.1
  { r3.2 with PC := toU16 ((h.val <<< 8) ||| l.val) }

/-- Member function `CPU::OPCODE_RTS`. -/
def OPCODE_RTS (_in : U16) (s : CPU) : CPU :=
  let r1 := stack_pop s
  let l : U8 := r1.1
  let r2 := stack_pop r1.2
  let h : U8 := r2.1
  { r2.2 with PC := toU16 (((h.val <<< 8) ||| l.val) + 1) }

/-- Member function `CPU::OPCODE_SBC`; `result` is an `unsigned int` and is not stored. -/
def OPCODE_SBC (in_ : U16) (s : CPU) : CPU :=
  let m : U8 := read_byte in_ s
  let carry : U8 := toU8 (b2i (decide (get_flag CARRY_FLAG s ≠ 0)))
  let result0 : Nat := toU32 ((s.A.val : Int) - (m.val : Int) - (1 - (carry.val : Int)))
  let is_overflow : Nat :=
    b2i (decide ((s.A.val ^^^ m.val) &&& BIT_7_MASK ≠ 0) && decide ((s.A.val ^^^ result0) &&& BIT_7_MASK ≠ 0))
  let s1 := set_flag OVERFLOW_FLAG is_overflow s
  let result : Nat := result0 &&& 0xFF
  let s2 := set_flag ZERO_FLAG (b2i (decide (result = 0))) s1
  set_flag NEGATIVE_FLAG (result &&& BIT_7_MASK) s2

/-- Member function `CPU::OPCODE_SEC`. -/
def OPCODE_SEC (_in : U16) (s : CPU) : CPU := set_flag CARRY_FLAG 1 s

/-- Member function `CPU::OPCODE_SED`. -/
def OPCODE_SED (_in : U16) (s : CPU) : CPU := set_flag DECIMAL_MODE 1 s

/-- Member function `CPU::OPCODE_SEI`. -/
def OPCODE_SEI (_in : U16) (s : CPU) : CPU := set_flag INTERRUPT_DISABLE 1 s

/-- Member function `CPU::OPCODE_STA`. -/
def OPCODE_STA (in_ : U16) (s : CPU) : CPU := write_byte in_ s.A s

/-- Member function `CPU::OPCODE_STX`. -/
def OPCODE_STX (in_ : U16) (s : CPU) : CPU := write_byte in_ s.X s

/-- Member function `CPU::OPCODE_STY`. -/
def OPCODE_STY (in_ : U16) (s : CPU) : CPU := write_byte in_ s.Y s

/-- Member function `CPU::OPCODE_TAX`. -/
def OPCODE_TAX (_in : U16) (s : CPU) : CPU :=
  let s1 : CPU := { s with X := s.A }
  let s2 := set_flag ZERO_FLAG (b2i (decide (s1.X.val = 0))) s1
  set_flag NEGATIVE_FLAG (s2.X.val &&& BIT_7_MASK) s2

/-- Member function `CPU::OPCODE_TAY`. -/
def OPCODE_TAY (_in : U16) (s : CPU) : CPU :=
  let s1 : CPU := { s with Y := s.A }
  let s2 := set_flag ZERO_FLAG (b2i (decide (s1.Y.val = 0))) s1
  set_flag NEGATIVE_FLAG (s2.Y.val &&& BIT_7_MASK) s2

/-- Member function `CPU::OPCODE_TSX`. -/
def OPCODE_TSX (_in : U16) (s : CPU) : CPU :=
  let s1 : CPU := { s with X := s.SP }
  let s2 := set_flag ZERO_FLAG (b2i (decide (s1.X.val = 0))) s1
  set_flag NEGATIVE_FLAG (s2.X.val &&& BIT_7_MASK) s2

/-- Member function `CPU::OPCODE_TXA`. -/
def OPCODE_TXA (_in : U16) (s : CPU) : CPU :=
  let s1 : CPU := { s with A := s.X }
  let s2 := set_flag ZERO_FLAG (b2i (decide (s1.X.val = 0))) s1
  set_flag NEGATIVE_FLAG (s2.X.val &&& BIT_7_MASK) s2

/-- Member function `CPU::OPCODE_TXS`. -/
def OPCODE_TXS (_in : U16) (s : CPU) : CPU :=
  let s1 : CPU := { s with SP := s.X }
  let s2 := set_flag ZERO_FLAG (b2i (decide (s1.X.val = 0))) s1
  set_flag NEGATIVE_FLAG (s2.X.val &&& BIT_7_MASK) s2

/-- Member function `CPU::OPCODE_TYA`. -/
def OPCODE_TYA (_in : U16) (s : CPU) : CPU :=
  let s1 : CPU := { s with A := s.Y }
  let s2 := set_flag ZERO_FLAG (b2i (decide (s1.Y.val = 0))) s1
  set_flag NEGATIVE_FLAG (s2.Y.val &&& BIT_7_MASK) s2

/-- Member function `CPU::OPCODE_ILLEGAL`: prints a line and returns. -/
def OPCODE_ILLEGAL (_in : U16) (s : CPU) : CPU := s

/-! ## The opcode catalog -/

/-- The targets of the member-function pointers stored in `code`. -/
inductive Handler
  | OPCODE_ADC | OPCODE_AND | OPCODE_ASL | OPCODE_ASL_ACC | OPCODE_BCC | OPCODE_BCS
  | OPCODE_BEQ | OPCODE_BIT | OPCODE_BMI | OPCODE_BNE | OPCODE_BPL | OPCODE_BRK
  | OPCODE_BVC | OPCODE_BVS | OPCODE_CLC | OPCODE_CLD | OPCODE_CLI | OPCODE_CLV
  | OPCODE_CMP | OPCODE_CPX | OPCODE_CPY | OPCODE_DEC | OPCODE_DEX | OPCODE_DEY
  | OPCODE_EOR | OPCODE_INC | OPCODE_INX | OPCODE_INY | OPCODE_JMP | OPCODE_JSR
  | OPCODE_LDA | OPCODE_LDX | OPCODE_LDY | OPCODE_LSR | OPCODE_LSR_ACC | OPCODE_NOP
  | OPCODE_ORA | OPCODE_PHA | OPCODE_PHP | OPCODE_PLA | OPCODE_PLP | OPCODE_ROL
  | OPCODE_ROL_ACC | OPCODE_ROR | OPCODE_ROR_ACC | OPCODE_RTI | OPCODE_RTS | OPCODE_SBC
  | OPCODE_SEC | OPCODE_SED | OPCODE_SEI | OPCODE_STA | OPCODE_STX | OPCODE_STY
  | OPCODE_TAX | OPCODE_TAY | OPCODE_TSX | OPCODE_TXA | OPCODE_TXS | OPCODE_TYA
  | OPCODE_ILLEGAL
  deriving DecidableEq, Repr

/-- The targets of the member-function pointers stored in `addressing_mode`. -/
inductive Mode
  | implied | accumulator | immediate | absolute | zero_page | abs_x | abs_y
  | zero_x | zero_y | abs_indirect | inx | iny | relative | illegal_mode
  deriving DecidableEq, Repr

/-- Calling through a pointer of `code`: `(this->*h)(in)`. -/
def Handler.call : Handler → U16 → CPU → CPU
  | .OPCODE_ADC => Emu6502.OPCODE_ADC | .OPCODE_AND => Emu6502.OPCODE_AND
  | .OPCODE_ASL => Emu6502.OPCODE_ASL | .OPCODE_ASL_ACC => Emu6502.OPCODE_ASL_ACC
  | .OPCODE_BCC => Emu6502.OPCODE_BCC | .OPCODE_BCS => Emu6502.OPCODE_BCS
  | .OPCODE_BEQ => Emu6502.OPCODE_BEQ | .OPCODE_BIT => Emu6502.OPCODE_BIT
  | .OPCODE_BMI => Emu6502.OPCODE_BMI | .OPCODE_BNE => Emu6502.OPCODE_BNE
  | .OPCODE_BPL => Emu6502.OPCODE_BPL | .OPCODE_BRK => Emu6502.OPCODE_BRK
  | .OPCODE_BVC => Emu6502.OPCODE_BVC | .OPCODE_BVS => Emu6502.OPCODE_BVS
  | .OPCODE_CLC => Emu6502.OPCODE_CLC | .OPCODE_CLD => Emu6502.OPCODE_CLD
  | .OPCODE_CLI => Emu6502.OPCODE_CLI | .OPCODE_CLV => Emu6502.OPCODE_CLV
  | .OPCODE_CMP => Emu6502.OPCODE_CMP | .OPCODE_CPX => Emu6502.OPCODE_CPX
  | .OPCODE_CPY => Emu6502.OPCODE_CPY | .OPCODE_DEC => Emu6502.OPCODE_DEC
  | .OPCODE_DEX => Emu6502.OPCODE_DEX | .OPCODE_DEY => Emu6502.OPCODE_DEY
  | .OPCODE_EOR => Emu6502.OPCODE_EOR | .OPCODE_INC => Emu6502.OPCODE_INC
  | .OPCODE_INX => Emu6502.OPCODE_INX | .OPCODE_INY => Emu6502.OPCODE_INY
  | .OPCODE_JMP => Emu6502.OPCODE_JMP | .OPCODE_JSR => Emu6502.OPCODE_JSR
  | .OPCODE_LDA => Emu6502.OPCODE_LDA | .OPCODE_LDX => Emu6502.OPCODE_LDX
  | .OPCODE_LDY => Emu6502.OPCODE_LDY | .OPCODE_LSR => Emu6502.OPCODE_LSR
  | .OPCODE_LSR_ACC => Emu6502.OPCODE_LSR_ACC | .OPCODE_NOP => Emu6502.OPCODE_NOP
  | .OPCODE_ORA => Emu6502.OPCODE_ORA | .OPCODE_PHA => Emu6502.OPCODE_PHA
  | .OPCODE_PHP => Emu6502.OPCODE_PHP | .OPCODE_PLA => Emu6502.OPCODE_PLA
  | .OPCODE_PLP => Emu6502.OPCODE_PLP | .OPCODE_ROL => Emu6502.OPCODE_ROL
  | .OPCODE_ROL_ACC => Emu6502.OPCODE_ROL_ACC | .OPCODE_ROR => Emu6502.OPCODE_ROR
  | .OPCODE_ROR_ACC => Emu6502.OPCODE_ROR_ACC | .OPCODE_RTI => Emu6502.OPCODE_RTI
  | .OPCODE_RTS => Emu6502.OPCODE_RTS | .OPCODE_SBC => Emu6502.OPCODE_SBC
  | .OPCODE_SEC => Emu6502.OPCODE_SEC | .OPCODE_SED => Emu6502.OPCODE_SED
  | .OPCODE_SEI => Emu6502.OPCODE_SEI | .OPCODE_STA => Emu6502.OPCODE_STA
  | .OPCODE_STX => Emu6502.OPCODE_STX | .OPCODE_STY => Emu6502.OPCODE_STY
  | .OPCODE_TAX => Emu6502.OPCODE_TAX | .OPCODE_TAY => Emu6502.OPCODE_TAY
  | .OPCODE_TSX => Emu6502.OPCODE_TSX | .OPCODE_TXA => Emu6502.OPCODE_TXA
  | .OPCODE_TXS => Emu6502.OPCODE_TXS | .OPCODE_TYA => Emu6502.OPCODE_TYA
  | .OPCODE_ILLEGAL => Emu6502.OPCODE_ILLEGAL

/-- Calling through a pointer of `addressing_mode`: `(this->*m)()`. -/
def Mode.call : Mode → CPU → U16 × CPU
  | .implied => Emu6502.implied | .accumulator => Emu6502.accumulator
  | .immediate => Emu6502.immediate | .absolute => Emu6502.absolute
  | .zero_page => Emu6502.zero_page | .abs_x => Emu6502.abs_x
  | .abs_y => Emu6502.abs_y | .zero_x => Emu6502.zero_x
  | .zero_y => Emu6502.zero_y | .abs_indirect => Emu6502.abs_indirect
  | .inx => Emu6502.inx | .iny => Emu6502.iny
  | .relative => Emu6502.relative | .illegal_mode => Emu6502.illegal_mode

set_option maxRecDepth 8192 in
/-- The table `code[256]` of `cpu.hpp`, in source order (three entries per line). -/
def code : List Handler := [
  Handler.OPCODE_BRK, Handler.OPCODE_ORA, Handler.OPCODE_ILLEGAL,
  Handler.OPCODE_ILLEGAL, Handler.OPCODE_ILLEGAL, Handler.OPCODE_ORA,
  Handler.OPCODE_ASL, Handler.OPCODE_ILLEGAL, Handler.OPCODE_PHP,
  Handler.OPCODE_ORA, Handler.OPCODE_ASL_ACC, Handler.OPCODE_ILLEGAL,
  Handler.OPCODE_ILLEGAL, Handler.OPCODE_ORA, Handler.OPCODE_ASL,
  Handler.OPCODE_ILLEGAL, Handler.OPCODE_BPL, Handler.OPCODE_ORA,
  Handler.OPCODE_ILLEGAL, Handler.OPCODE_ILLEGAL, Handler.OPCODE_ILLEGAL,
  Handler.OPCODE_ORA, Handler.OPCODE_ASL, Handler.OPCODE_ILLEGAL,
  Handler.OPCODE_CLC, Handler.OPCODE_ORA, Handler.OPCODE_ILLEGAL,
  Handler.OPCODE_ILLEGAL, Handler.OPCODE_ILLEGAL, Handler.OPCODE_ORA,
  Handler.OPCODE_ASL, Handler.OPCODE_ILLEGAL, Handler.OPCODE_JSR,
  Handler.OPCODE_AND, Handler.OPCODE_ILLEGAL, Handler.OPCODE_ILLEGAL,
  Handler.OPCODE_BIT, Handler.OPCODE_AND, Handler.OPCODE_ROL,
  Handler.OPCODE_ILLEGAL, Handler.OPCODE_PLP, Handler.OPCODE_AND,
  Handler.OPCODE_ROL_ACC, Handler.OPCODE_ILLEGAL, Handler.OPCODE_BIT,
  Handler.OPCODE_AND, Handler.OPCODE_ROL, Handler.OPCODE_ILLEGAL,
  Handler.OPCODE_BMI, Handler.OPCODE_AND, Handler.OPCODE_ILLEGAL,
  Handler.OPCODE_ILLEGAL, Handler.OPCODE_ILLEGAL, Handler.OPCODE_AND,
  Handler.OPCODE_ROL, Handler.OPCODE_ILLEGAL, Handler.OPCODE_SEC,
  Handler.OPCODE_AND, Handler.OPCODE_ILLEGAL, Handler.OPCODE_ILLEGAL,
  Handler.OPCODE_ILLEGAL, Handler.OPCODE_AND, Handler.OPCODE_ROL,
  Handler.OPCODE_ILLEGAL, Handler.OPCODE_RTI, Handler.OPCODE_EOR,
  Handler.OPCODE_ILLEGAL, Handler.OPCODE_ILLEGAL, Handler.OPCODE_ILLEGAL,
  Handler.OPCODE_EOR, Handler.OPCODE_LSR, Handler.OPCODE_ILLEGAL,
  Handler.OPCODE_PHA, Handler.OPCODE_EOR, Handler.OPCODE_LSR_ACC,
  Handler.OPCODE_ILLEGAL, Handler.OPCODE_JMP, Handler.OPCODE_EOR,
  Handler.OPCODE_LSR, Handler.OPCODE_ILLEGAL, Handler.OPCODE_BVC,
  Handler.OPCODE_EOR, Handler.OPCODE_ILLEGAL, Handler.OPCODE_ILLEGAL,
  Handler.OPCODE_ILLEGAL, Handler.OPCODE_EOR, Handler.OPCODE_LSR,
  Handler.OPCODE_ILLEGAL, Handler.OPCODE_CLI, Handler.OPCODE_EOR,
  Handler.OPCODE_ILLEGAL, Handler.OPCODE_ILLEGAL, Handler.OPCODE_ILLEGAL,
  Handler.OPCODE_EOR, Handler.OPCODE_LSR, Handler.OPCODE_ILLEGAL,
  Handler.OPCODE_RTS, Handler.OPCODE_ADC, Handler.OPCODE_ILLEGAL,
  Handler.OPCODE_ILLEGAL, Handler.OPCODE_ILLEGAL, Handler.OPCODE_ADC,
  Handler.OPCODE_ROR, Handler.OPCODE_ILLEGAL, Handler.OPCODE_PLA,
  Handler.OPCODE_ADC, Handler.OPCODE_ROR_ACC, Handler.OPCODE_ILLEGAL,
  Handler.OPCODE_JMP, Handler.OPCODE_ADC, Handler.OPCODE_ROR,
  Handler.OPCODE_ILLEGAL, Handler.OPCODE_BVS, Handler.OPCODE_ADC,
  Handler.OPCODE_ILLEGAL, Handler.OPCODE_ILLEGAL, Handler.OPCODE_ILLEGAL,
  Handler.OPCODE_ADC, Handler.OPCODE_ROR, Handler.OPCODE_ILLEGAL,
  Handler.OPCODE_SEI, Handler.OPCODE_ADC, Handler.OPCODE_ILLEGAL,
  Handler.OPCODE_ILLEGAL, Handler.OPCODE_ILLEGAL, Handler.OPCODE_ADC,
  Handler.OPCODE_ROR, Handler.OPCODE_ILLEGAL, Handler.OPCODE_ILLEGAL,
  Handler.OPCODE_STA, Handler.OPCODE_ILLEGAL, Handler.OPCODE_ILLEGAL,
  Handler.OPCODE_STY, Handler.OPCODE_STA, Handler.OPCODE_STX,
  Handler.OPCODE_ILLEGAL, Handler.OPCODE_DEY, Handler.OPCODE_ILLEGAL,
  Handler.OPCODE_TXA, Handler.OPCODE_ILLEGAL, Handler.OPCODE_STY,
  Handler.OPCODE_STA, Handler.OPCODE_STX, Handler.OPCODE_ILLEGAL,
  Handler.OPCODE_BCC, Handler.OPCODE_STA, Handler.OPCODE_ILLEGAL,
  Handler.OPCODE_ILLEGAL, Handler.OPCODE_STY, Handler.OPCODE_STA,
  Handler.OPCODE_STX, Handler.OPCODE_ILLEGAL, Handler.OPCODE_TYA,
  Handler.OPCODE_STA, Handler.OPCODE_TXS, Handler.OPCODE_ILLEGAL,
  Handler.OPCODE_ILLEGAL, Handler.OPCODE_STA, Handler.OPCODE_ILLEGAL,
  Handler.OPCODE_ILLEGAL, Handler.OPCODE_LDY, Handler.OPCODE_LDA,
  Handler.OPCODE_LDX, Handler.OPCODE_ILLEGAL, Handler.OPCODE_LDY,
  Handler.OPCODE_LDA, Handler.OPCODE_LDX, Handler.OPCODE_ILLEGAL,
  Handler.OPCODE_TAY, Handler.OPCODE_LDA, Handler.OPCODE_TAX,
  Handler.OPCODE_ILLEGAL, Handler.OPCODE_LDY, Handler.OPCODE_LDA,
  Handler.OPCODE_LDX, Handler.OPCODE_ILLEGAL, Handler.OPCODE_BCS,
  Handler.OPCODE_LDA, Handler.OPCODE_ILLEGAL, Handler.OPCODE_ILLEGAL,
  Handler.OPCODE_LDY, Handler.OPCODE_LDA, Handler.OPCODE_LDX,
  Handler.OPCODE_ILLEGAL, Handler.OPCODE_CLV, Handler.OPCODE_LDA,
  Handler.OPCODE_TSX, Handler.OPCODE_ILLEGAL, Handler.OPCODE_LDY,
  Handler.OPCODE_LDA, Handler.OPCODE_LDX, Handler.OPCODE_ILLEGAL,
  Handler.OPCODE_CPY, Handler.OPCODE_CMP, Handler.OPCODE_ILLEGAL,
  Handler.OPCODE_ILLEGAL, Handler.OPCODE_CPY, Handler.OPCODE_CMP,
  Handler.OPCODE_DEC, Handler.OPCODE_ILLEGAL, Handler.OPCODE_INY,
  Handler.OPCODE_CMP, Handler.OPCODE_DEX, Handler.OPCODE_ILLEGAL,
  Handler.OPCODE_CPY, Handler.OPCODE_CMP, Handler.OPCODE_DEC,
  Handler.OPCODE_ILLEGAL, Handler.OPCODE_BNE, Handler.OPCODE_CMP,
  Handler.OPCODE_ILLEGAL, Handler.OPCODE_ILLEGAL, Handler.OPCODE_ILLEGAL,
  Handler.OPCODE_CMP, Handler.OPCODE_DEC, Handler.OPCODE_ILLEGAL,
  Handler.OPCODE_CLD, Handler.OPCODE_CMP, Handler.OPCODE_ILLEGAL,
  Handler.OPCODE_ILLEGAL, Handler.OPCODE_ILLEGAL, Handler.OPCODE_CMP,
  Handler.OPCODE_DEC, Handler.OPCODE_ILLEGAL, Handler.OPCODE_CPX,
  Handler.OPCODE_SBC, Handler.OPCODE_ILLEGAL, Handler.OPCODE_ILLEGAL,
  Handler.OPCODE_CPX, Handler.OPCODE_SBC, Handler.OPCODE_INC,
  Handler.OPCODE_ILLEGAL, Handler.OPCODE_INX, Handler.OPCODE_SBC,
  Handler.OPCODE_NOP, Handler.OPCODE_ILLEGAL, Handler.OPCODE_CPX,
  Handler.OPCODE_SBC, Handler.OPCODE_INC, Handler.OPCODE_ILLEGAL,
  Handler.OPCODE_BEQ, Handler.OPCODE_SBC, Handler.OPCODE_ILLEGAL,
  Handler.OPCODE_ILLEGAL, Handler.OPCODE_ILLEGAL, Handler.OPCODE_SBC,
  Handler.OPCODE_INC, Handler.OPCODE_ILLEGAL, Handler.OPCODE_SED,
  Handler.OPCODE_SBC, Handler.OPCODE_ILLEGAL, Handler.OPCODE_ILLEGAL,
  Handler.OPCODE_ILLEGAL, Handler.OPCODE_SBC, Handler.OPCODE_INC,
  Handler.OPCODE_ILLEGAL]

set_option maxRecDepth 8192 in
/-- The table `addressing_mode[256]` of `cpu.hpp`, in source order. -/
def addressing_mode : List Mode := [
  Mode.implied, Mode.inx, Mode.illegal_mode,
  Mode.illegal_mode, Mode.illegal_mode, Mode.zero_page,
  Mode.zero_page, Mode.illegal_mode, Mode.implied,
  Mode.immediate, Mode.accumulator, Mode.illegal_mode,
  Mode.illegal_mode, Mode.absolute, Mode.absolute,
  Mode.illegal_mode, Mode.relative, Mode.iny,
  Mode.illegal_mode, Mode.illegal_mode, Mode.illegal_mode,
  Mode.zero_x, Mode.zero_x, Mode.illegal_mode,
  Mode.implied, Mode.abs_y, Mode.illegal_mode,
  Mode.illegal_mode, Mode.illegal_mode, Mode.abs_x,
  Mode.abs_x, Mode.illegal_mode, Mode.absolute,
  Mode.inx, Mode.illegal_mode, Mode.illegal_mode,
  Mode.zero_page, Mode.zero_page, Mode.zero_page,
  Mode.illegal_mode, Mode.implied, Mode.immediate,
  Mode.accumulator, Mode.illegal_mode, Mode.absolute,
  Mode.absolute, Mode.absolute, Mode.illegal_mode,
  Mode.relative, Mode.iny, Mode.illegal_mode,
  Mode.illegal_mode, Mode.illegal_mode, Mode.zero_x,
  Mode.zero_x, Mode.illegal_mode, Mode.implied,
  Mode.abs_y, Mode.illegal_mode, Mode.illegal_mode,
  Mode.illegal_mode, Mode.abs_x, Mode.abs_x,
  Mode.illegal_mode, Mode.implied, Mode.inx,
  Mode.illegal_mode, Mode.illegal_mode, Mode.illegal_mode,
  Mode.zero_page, Mode.zero_page, Mode.illegal_mode,
  Mode.implied, Mode.immediate, Mode.accumulator,
  Mode.illegal_mode, Mode.absolute, Mode.absolute,
  Mode.absolute, Mode.illegal_mode, Mode.relative,
  Mode.iny, Mode.illegal_mode, Mode.illegal_mode,
  Mode.illegal_mode, Mode.zero_x, Mode.zero_x,
  Mode.illegal_mode, Mode.implied, Mode.abs_y,
  Mode.illegal_mode, Mode.illegal_mode, Mode.illegal_mode,
  Mode.abs_x, Mode.abs_x, Mode.illegal_mode,
  Mode.implied, Mode.inx, Mode.illegal_mode,
  Mode.illegal_mode, Mode.illegal_mode, Mode.zero_page,
  Mode.zero_page, Mode.illegal_mode, Mode.implied,
  Mode.immediate, Mode.accumulator, Mode.illegal_mode,
  Mode.abs_indirect, Mode.absolute, Mode.absolute,
  Mode.illegal_mode, Mode.relative, Mode.iny,
  Mode.illegal_mode, Mode.illegal_mode, Mode.illegal_mode,
  Mode.zero_x, Mode.zero_x, Mode.illegal_mode,
  Mode.implied, Mode.abs_y, Mode.illegal_mode,
  Mode.illegal_mode, Mode.illegal_mode, Mode.abs_x,
  Mode.abs_x, Mode.illegal_mode, Mode.illegal_mode,
  Mode.inx, Mode.illegal_mode, Mode.illegal_mode,
  Mode.zero_page, Mode.zero_page, Mode.zero_page,
  Mode.illegal_mode, Mode.implied, Mode.illegal_mode,
  Mode.implied, Mode.illegal_mode, Mode.absolute,
  Mode.absolute, Mode.absolute, Mode.illegal_mode,
  Mode.relative, Mode.iny, Mode.illegal_mode,
  Mode.illegal_mode, Mode.zero_x, Mode.zero_x,
  Mode.zero_y, Mode.illegal_mode, Mode.implied,
  Mode.abs_y, Mode.implied, Mode.illegal_mode,
  Mode.illegal_mode, Mode.abs_x, Mode.illegal_mode,
  Mode.illegal_mode, Mode.immediate, Mode.inx,
  Mode.immediate, Mode.illegal_mode, Mode.zero_page,
  Mode.zero_page, Mode.zero_page, Mode.illegal_mode,
  Mode.implied, Mode.immediate, Mode.implied,
  Mode.illegal_mode, Mode.absolute, Mode.absolute,
  Mode.absolute, Mode.illegal_mode, Mode.relative,
  Mode.iny, Mode.illegal_mode, Mode.illegal_mode,
  Mode.zero_x, Mode.zero_x, Mode.zero_y,
  Mode.illegal_mode, Mode.implied, Mode.abs_y,
  Mode.implied, Mode.illegal_mode, Mode.abs_x,
  Mode.abs_x, Mode.abs_y, Mode.illegal_mode,
  Mode.immediate, Mode.inx, Mode.illegal_mode,
  Mode.illegal_mode, Mode.zero_page, Mode.zero_page,
  Mode.zero_page, Mode.illegal_mode, Mode.implied,
  Mode.immediate, Mode.implied, Mode.illegal_mode,
  Mode.absolute, Mode.absolute, Mode.absolute,
  Mode.illegal_mode, Mode.relative, Mode.iny,
  Mode.illegal_mode, Mode.illegal_mode, Mode.illegal_mode,
  Mode.zero_x, Mode.zero_x, Mode.illegal_mode,
  Mode.implied, Mode.abs_y, Mode.illegal_mode,
  Mode.illegal_mode, Mode.illegal_mode, Mode.abs_x,
  Mode.abs_x, Mode.illegal_mode, Mode.immediate,
  Mode.inx, Mode.illegal_mode, Mode.illegal_mode,
  Mode.zero_page, Mode.zero_page, Mode.zero_page,
  Mode.illegal_mode, Mode.implied, Mode.immediate,
  Mode.implied, Mode.illegal_mode, Mode.absolute,
  Mode.absolute, Mode.absolute, Mode.illegal_mode,
  Mode.relative, Mode.iny, Mode.illegal_mode,
  Mode.illegal_mode, Mode.illegal_mode, Mode.zero_x,
  Mode.zero_x, Mode.illegal_mode, Mode.implied,
  Mode.abs_y, Mode.illegal_mode, Mode.illegal_mode,
  Mode.illegal_mode, Mode.abs_x, Mode.abs_x,
  Mode.illegal_mode]

set_option maxRecDepth 8192 in
/-- The table `cycle_number[256]` of `cpu.hpp`, in source order (24 entries per line). -/
def cycle_number : List Int := [
  7, 6, 1, 1, 1, 3, 5, 1, 3, 2, 2, 1, 1, 4, 6, 1, 2, 5, 1, 1, 1, 4, 6, 1,
  2, 4, 1, 1, 1, 4, 7, 1, 6, 6, 1, 1, 3, 3, 5, 1, 4, 2, 2, 1, 4, 4, 6, 1,
  2, 5, 1, 1, 1, 4, 6, 1, 2, 4, 1, 1, 1, 4, 7, 1, 6, 6, 1, 1, 1, 3, 5, 1,
  3, 2, 2, 1, 3, 4, 6, 1, 2, 5, 1, 1, 1, 4, 6, 1, 2, 4, 1, 1, 1, 4, 7, 1,
  6, 6, 1, 1, 1, 3, 5, 1, 4, 2, 2, 1, 5, 4, 6, 1, 2, 5, 1, 1, 1, 4, 6, 1,
  2, 4, 1, 1, 1, 4, 7, 1, 1, 6, 1, 1, 3, 3, 3, 1, 2, 1, 2, 1, 4, 4, 4, 1,
  2, 6, 1, 1, 4, 4, 4, 1, 2, 5, 2, 1, 1, 5, 1, 1, 2, 6, 2, 1, 3, 3, 3, 1,
  2, 2, 2, 1, 4, 4, 4, 1, 2, 5, 1, 1, 4, 4, 4, 1, 2, 4, 2, 1, 4, 4, 4, 1,
  2, 6, 1, 1, 3, 3, 5, 1, 2, 2, 2, 1, 4, 4, 6, 1, 2, 5, 1, 1, 1, 4, 6, 1,
  2, 4, 1, 1, 1, 4, 7, 1, 2, 6, 1, 1, 3, 3, 5, 1, 2, 2, 2, 1, 4, 4, 6, 1,
  2, 5, 1, 1, 1, 4, 6, 1, 2, 4, 1, 1, 1, 4, 7, 1]

set_option maxRecDepth 8192 in
/-- The entry `code[(int)opcode]`; the table has 256 entries, so every byte indexes it. -/
def code_at (opcode : U8) : Handler :=
  code.get (Fin.cast (show 256 = code.length from rfl) opcode)

set_option maxRecDepth 8192 in
/-- The entry `addressing_mode[(int)opcode]`. -/
def addressing_mode_at (opcode : U8) : Mode :=
  addressing_mode.get (Fin.cast (show 256 = addressing_mode.length from rfl) opcode)

set_option maxRecDepth 8192 in
/-- The entry `cycle_number[(int)opcode]`. -/
def cycle_number_at (opcode : U8) : Int :=
  cycle_number.get (Fin.cast (show 256 = cycle_number.length from rfl) opcode)

/-! ## The execution loop -/

/-- The byte fetched by `read_byte(PC++)` at the head of the loop body. -/
def fetch_opcode (s : CPU) : U8 := read_byte s.PC s

/-- The first two statements of the body of the `while` loop of `CPU::execute`: fetch the
opcode (advancing `PC`), resolve the addressing mode, call the handler on its result. -/
def execute_instruction (s : CPU) : CPU :=
  let opcode : U8 := fetch_opcode s
  let s1 : CPU := { s with PC := toU16 (s.PC.val + 1) }
  let r := (addressing_mode_at opcode).call s1
  (code_at opcode).call r.1 r.2

/-- The largest value of the C++ `int` (32 bits, two's complement). -/
abbrev INT_MAX : Int := 2147483647

/-- What running the `while` loop of `CPU::execute` under an iteration bound ends in:
`finished cycles s` when the loop test fails and the function returns, with the final value
of the local `cycles` and the final object; `overflow` when `cycles += cycle_number[...]`
leaves the range of `int` (signed overflow, undefined behaviour in C++); `out_of_fuel` when
the loop has not ended within the iteration bound. -/
inductive LoopResult
  | finished (cycles : Int) (s : CPU)
  | overflow
  | out_of_fuel

/-- The value of `cycles` and the object at loop exit, when the loop has finished. -/
def LoopResult.result : LoopResult → Option (Int × CPU)
  | LoopResult.finished cycles s => some (cycles, s)
  | LoopResult.overflow => none
  | LoopResult.out_of_fuel => none

/-- The `while` loop of `CPU::execute`, run for at most `fuel` iterations, from the local
`cycles` and the object `s`; a result other than `out_of_fuel` with `fuel = k` says that the
loop body ran at most `k` times.  `cycles` and `num_cycles` are C++ `int`s: the sum
`cycles + cycle_number[opcode]` is formed on the integers and the loop ends in `overflow`
when it exceeds `INT_MAX` (the entries of `cycle_number` are positive, so the sum cannot
fall below the least `int`). -/
def execute_loop (num_cycles : Int) : Nat → Int → CPU → LoopResult
  | 0, cycles, s =>
    if cycles < num_cycles then LoopResult.out_of_fuel else LoopResult.finished cycles s
  | fuel + 1, cycles, s =>
    if cycles < num_cycles then
      if INT_MAX < cycles + cycle_number_at (fetch_opcode s) then LoopResult.overflow
      else
        execute_loop num_cycles fuel (cycles + cycle_number_at (fetch_opcode s))
          (execute_instruction s)
    else LoopResult.finished cycles s

/-- Member function `CPU::execute(num_cycles)`: the loop entered with `cycles = 0`, cut off
after `fuel` iterations. -/
def execute (fuel : Nat) (num_cycles : Int) (s : CPU) : LoopResult :=
  execute_loop num_cycles fuel 0 s

/-- A store of the size used by `main` (65535 bytes), cleared by `clear_memory`. -/
def zeroMem : Memory := ⟨65535, fun _ => 0⟩

/-- The state after construction and `reset()` on a little-endian host with an empty image. -/
def resetState : CPU := ⟨1, 0x0600, 0xFF, 0, 0, 0, 0, zeroMem⟩

/-- A reset state with some registers and flags filled in. -/
def busyState : CPU := ⟨1, 0x0600, 0x00, 0x12, 0x34, 0x56, 0xC3, zeroMem⟩

/-- A little-endian machine at the reset address with the program `JSR $0700` at
`0x0600..0x0602` and `RTS` at `0x0700`; the rest of the store is zero. -/
def jsrState : CPU :=
  ⟨1, 0x0600, 0xFF, 0, 0, 0, 0,
    ⟨65535, fun p => if p = 0x0600 then 0x20 else if p = 0x0601 then 0x00
      else if p = 0x0602 then 0x07 else if p = 0x0700 then 0x60 else 0⟩⟩

/-- A machine at the reset address whose next opcode byte is `0x02`, an undefined opcode. -/
def illegalState : CPU :=
  ⟨1, 0x0600, 0xFD, 0x12, 0x34, 0x56, 0xC3, ⟨65535, fun p => if p = 0x0600 then 0x02 else 0⟩⟩

/-- A state with Decimal clear, Carry set, `A = 0xFF` and the operand byte `0x01` at `0x0010`. -/
def adcState : CPU :=
  ⟨1, 0x0600, 0xFF, 0xFF, 0, 0, 0x01, ⟨65535, fun p => if p = 0x0010 then 0x01 else 0⟩⟩

/-- A state with all flags clear, `A = 0x7F` and the operand byte `0x01` at `0x0010`. -/
def adcOverflowState : CPU :=
  ⟨1, 0x0600, 0xFF, 0x7F, 0, 0, 0x00, ⟨65535, fun p => if p = 0x0010 then 0x01 else 0⟩⟩

/-- A state with status `0x49` (Carry, Decimal, Overflow set), registers filled in, and the
bytes `0x80` at `0x0010` and `0x00` at `0x0011`. -/
def loadState : CPU :=
  ⟨1, 0x0600, 0xFD, 0x12, 0x34, 0x56, 0x49, ⟨65535, fun p => if p = 0x0010 then 0x80 else 0⟩⟩

/-- A little-endian machine with the operand byte `0x10` at `pc = 0x0600`, `Y = 0x01`, and the
zero-page bytes `0x34`, `0x12`, `0xAB` at `0x0010`, `0x0011`, `0x0012`. -/
def inyState : CPU :=
  ⟨1, 0x0600, 0xFF, 0, 0, 0x01, 0,
    ⟨65535, fun p => if p = 0x0600 then 0x10 else if p = 0x0010 then 0x34
      else if p = 0x0011 then 0x12 else if p = 0x0012 then 0xAB else 0⟩⟩

/-- A little-endian machine with the operand byte `0xF0` at `pc = 0x0600`, `X = 0x0F` (so
`r = 0xFF`), and the bytes `0x34` at `0x00FF`, `0x12` at `0x0000`, `0xAB` at `0x0100`. -/
def inxState : CPU :=
  ⟨1, 0x0600, 0xFF, 0, 0x0F, 0, 0,
    ⟨65535, fun p => if p = 0x0600 then 0xF0 else if p = 0x00FF then 0x34
      else if p = 0x0000 then 0x12 else if p = 0x0100 then 0xAB else 0⟩⟩

/-- A state with the Decimal flag set (status `0x08`), `A = 0x05`, and the operand bytes `0x05`
at `0x0010` and `0x00` at `0x0011`. -/
def bcdState : CPU :=
  ⟨1, 0x0600, 0xFF, 0x05, 0, 0, 0x08, ⟨65535, fun p => if p = 0x0010 then 0x05 else 0⟩⟩

/-- A little-endian machine with the operand word `0x0700` at `pc = 0x0600` and the word
`0x1234` stored at `0x0700`. -/
def indirectState : CPU :=
  ⟨1, 0x0600, 0xFF, 0, 0, 0, 0,
    ⟨65535, fun p => if p = 0x0601 then 0x07 else if p = 0x0700 then 0x34
      else if p = 0x0701 then 0x12 else 0⟩⟩

/-- The reference configuration of `main` on a little-endian host right after construction and
`reset()`: a 65535-byte store holding the program image `4C FF FF` (`JMP $FFFF`) from `0x0600`
(the loader stores the last byte once more at `0x0603`). -/
def jmpState : CPU :=
  ⟨1, 0x0600, 0xFF, 0, 0, 0, 0,
    ⟨65535, fun p => if p = 0x0600 then 0x4C else if p = 0x0601 then 0xFF
      else if p = 0x0602 then 0xFF else if p = 0x0603 then 0xFF else 0⟩⟩

/-- The requirement on a branch handler `h` whose branch is taken in the states satisfying
`taken`: called with the resolved target `t`, it sets `PC` to `t` when the branch is taken and
leaves `PC` alone otherwise, and in both cases leaves the flags, `A`, `X`, `Y`, `SP` and the
memory unchanged. -/
def BranchSpec (h : U16 → CPU → CPU) (taken : CPU → Prop) : Prop :=
  ∀ (s : CPU) (t : U16),
    (taken s → (h t s).PC = t) ∧ (¬ taken s → (h t s).PC = s.PC) ∧
    (h t s).processor_status = s.processor_status ∧ (h t s).A = s.A ∧ (h t s).X = s.X ∧
    (h t s).Y = s.Y ∧ (h t s).SP = s.SP ∧ (h t s).mem = s.mem

/-- The two's-complement value of a byte: `b` for `b < 128` and `b - 256` otherwise. -/
def signed_byte (b : Nat) : Int := if b < 128 then (b : Int) else (b : Int) - 256

/-- Bit 7 of a non-negative integer. -/
def bit7 (n : Nat) : Nat := n / 128 % 2

/-- The binary sum `a + m + c` formed by ADC: accumulator, operand byte at `in_`, carry-in. -/
def adc_sum (in_ : U16) (s : CPU) : Nat :=
  s.A.val + (read_byte in_ s).val + get_flag CARRY_FLAG s

/-- The address that C16 states for the indirect-indexed mode: with `z` the operand byte at
`pc`, the pointer with low byte at `z` and high byte at `(z + 1) mod 256`, plus `y`,
modulo 65536. -/
def iny_claimed (s : CPU) : Nat :=
  let z : Nat := (read_byte s.PC s).val
  let P : Nat := (read_byte (toU16 z) s).val + 256 * (read_byte (toU16 ((z + 1) % 256)) s).val
  (P + s.Y.val) % 65536

/-- The address that C17 states for the indexed-indirect mode: with `z` the operand byte at
`pc` and `r = (z + x) mod 256`, the pointer with low byte at `r` and high byte at
`(r + 1) mod 256`. -/
def inx_claimed (s : CPU) : Nat :=
  let r : Nat := ((read_byte s.PC s).val + s.X.val) % 256
  (read_byte (toU16 r) s).val + 256 * (read_byte (toU16 ((r + 1) % 256)) s).val

/-- The decimal-mode result that C18 states for ADC, from accumulator `a`, operand `m` and
carry-in `c`: the new accumulator and the new Carry. -/
def adc_decimal_claimed (a m c : Nat) : Nat × Bool :=
  let t : Nat := a + m + c
  let t1 : Nat := if t &&& 0x0F > 0x09 then t + 0x06 else t
  let carry : Bool := decide (t1 > 0x99)
  let t2 : Nat := if t1 &&& 0xF0 > 0x90 then t1 + 0x60 else t1
  (t2 % 256, carry)

/-- The conventional single-pointer fetch of an indirect jump: `read_word(read_word(pc))`. -/
def conventional_indirect (s : CPU) : U16 := read_word (read_word s.PC s) s

/-- The requirement of C22 on a compare handler `h` for the register `reg`: with `r` the
register value and `m` the operand byte, Carry is set iff `r ≥ m`, Zero iff `r = m`,
Negative iff bit 7 of `(r - m) mod 256` is 1, and every other flag, the registers, `pc` and
the memory are unchanged. -/
def CompareSpec (h : U16 → CPU → CPU) (reg : CPU → U8) : Prop :=
  ∀ (in_ : U16) (s : CPU) (g : Fin 8),
    g.val ≠ CARRY_FLAG → g.val ≠ ZERO_FLAG → g.val ≠ NEGATIVE_FLAG →
    (get_flag CARRY_FLAG (h in_ s) = 1 ↔ (reg s).val ≥ (read_byte in_ s).val) ∧
    (get_flag ZERO_FLAG (h in_ s) = 1 ↔ (reg s).val = (read_byte in_ s).val) ∧
    (get_flag NEGATIVE_FLAG (h in_ s) = 1 ↔
      bit7 ((((reg s).val : Int) - ((read_byte in_ s).val : Int)) % 256).toNat = 1) ∧
    get_flag g.val (h in_ s) = get_flag g.val s ∧
    (h in_ s).A = s.A ∧ (h in_ s).X = s.X ∧ (h in_ s).Y = s.Y ∧ (h in_ s).SP = s.SP ∧
    (h in_ s).PC = s.PC ∧ (h in_ s).mem = s.mem

/-- The requirement of C23 on a shift or rotate handler `h` acting on the operand selected by
`operand` (the memory byte at `in_`, or the accumulator): from the old operand value `v` and
the old Carry `c`, the operand becomes `result v c`, Carry becomes `carry v`, and Zero and
Negative are set from the result. -/
def ShiftSpec (h : U16 → CPU → CPU) (operand : U16 → CPU → U8)
    (result : Nat → Nat → Nat) (carry : Nat → Nat) : Prop :=
  ∀ (in_ : U16) (s : CPU),
    (operand in_ (h in_ s)).val = result (operand in_ s).val (get_flag CARRY_FLAG s) ∧
    get_flag CARRY_FLAG (h in_ s) = carry (operand in_ s).val ∧
    get_flag ZERO_FLAG (h in_ s) =
      (if result (operand in_ s).val (get_flag CARRY_FLAG s) = 0 then 1 else 0) ∧
    get_flag NEGATIVE_FLAG (h in_ s) = bit7 (result (operand in_ s).val (get_flag CARRY_FLAG s))

/-- The memory operand of a handler: the byte at the effective address. -/
def memOperand (in_ : U16) (s : CPU) : U8 := read_byte in_ s

/-- The accumulator operand of a handler. -/
def accOperand (_in : U16) (s : CPU) : U8 := s.A

/-! ## Basic facts about the conversions and the catalog -/

@[simp] theorem toU8_val (n : Nat) : (toU8 n).val = n % 256 := rfl

@[simp] theorem toU16_val (n : Nat) : (toU16 n).val = n % 65536 := rfl

set_option maxRecDepth 100000 in
theorem catalog_illegal_table : ∀ k : U8,
    (code_at k = Handler.OPCODE_ILLEGAL ↔ addressing_mode_at k = Mode.illegal_mode) ∧
    (addressing_mode_at k = Mode.illegal_mode ↔ cycle_number_at k = 1) := by
  decide!

/-! ## Bit-level facts behind `set_flag` and `get_flag` -/

theorem and_two_pow_eq_zero_iff (x i : Nat) : x &&& 2 ^ i = 0 ↔ x.testBit i = false := by
  constructor
  · intro h
    have h2 := congrArg (fun y => y.testBit i) h
    simpa [Nat.testBit_two_pow_self] using h2
  · intro h
    apply Nat.eq_of_testBit_eq
    intro j
    by_cases hij : i = j
    · subst hij
      simp [h]
    · simp [Nat.testBit_two_pow, hij]

theorem get_flag_eq_testBit (f : Nat) (s : CPU) :
    get_flag f s = b2i (s.processor_status.val.testBit f) := by
  unfold get_flag
  rw [Nat.one_shiftLeft]
  cases hb : s.processor_status.val.testBit f
  · simp [(and_two_pow_eq_zero_iff _ _).mpr hb]
  · have hne : s.processor_status.val &&& 2 ^ f ≠ 0 := by
      intro h0
      rw [(and_two_pow_eq_zero_iff _ _).mp h0] at hb
      exact Bool.noConfusion hb
    simp [hne]

theorem toU32_not_two_pow (f : Nat) (hf : f < 8) :
    toU32 (-((1 <<< f : Nat) : Int) - 1) = 2 ^ 32 - (2 ^ f + 1) := by
  rw [Nat.one_shiftLeft]
  have h1 : 2 ^ f ≤ 2 ^ 7 := Nat.pow_le_pow_right (by decide) (by omega)
  have h2 : 0 < 2 ^ f := Nat.two_pow_pos f
  generalize 2 ^ f = p at h1 h2
  unfold toU32
  push_cast
  omega

theorem set_flag_testBit (f g : Nat) (hf : f < 8) (hg : g < 8) (val : Nat) (s : CPU) :
    (set_flag f val s).processor_status.val.testBit g =
      if g = f then decide (val ≠ 0) else s.processor_status.val.testBit g := by
  unfold set_flag
  by_cases hv : val ≠ 0
  · rw [if_pos hv]
    show ((s.processor_status.val ||| 1 <<< f) % 2 ^ 8).testBit g = _
    rw [Nat.testBit_mod_two_pow, Nat.one_shiftLeft, Nat.testBit_or, Nat.testBit_two_pow]
    by_cases hgf : g = f
    · subst hgf
      simp [hg, hv]
    · have hfg : ¬ f = g := fun h => hgf h.symm
      simp [hg, hgf, hfg]
  · rw [if_neg hv]
    show ((s.processor_status.val &&& toU32 (-((1 <<< f : Nat) : Int) - 1)) % 2 ^ 8).testBit g = _
    have hlt : 2 ^ f < 2 ^ 32 := Nat.pow_lt_pow_right (by decide) (by omega)
    rw [toU32_not_two_pow f hf, Nat.testBit_mod_two_pow, Nat.testBit_and,
      Nat.testBit_two_pow_sub_succ hlt, Nat.testBit_two_pow]
    have hg32 : g < 32 := by omega
    by_cases hgf : g = f
    · subst hgf
      simp [hg, hv]
    · have hfg : ¬ f = g := fun h => hgf h.symm
      simp [hg, hg32, hgf, hfg]

/-! ## The claims -/

/-- C4: the three catalog tables agree on the undefined opcodes: for every opcode byte `k`,
`code[k]` is `OPCODE_ILLEGAL` iff `addressing_mode[k]` is `illegal_mode` iff
`cycle_number[k] = 1`. -/
theorem catalog_illegal_agree (k : U8) :
    (code_at k = Handler.OPCODE_ILLEGAL ↔ addressing_mode_at k = Mode.illegal_mode) ∧
    (addressing_mode_at k = Mode.illegal_mode ↔ cycle_number_at k = 1) :=
  catalog_illegal_table k

/-- C5: from every prior state, `reset()` yields `pc = 0x0600`, `sp = 0xFF`, `a = x = y = 0`
and status register `0`. -/
theorem reset_registers (s : CPU) :
    (reset s).PC.val = 0x0600 ∧ (reset s).SP.val = 0xFF ∧ (reset s).A.val = 0 ∧
    (reset s).X.val = 0 ∧ (reset s).Y.val = 0 ∧ (reset s).processor_status.val = 0 :=
  ⟨rfl, rfl, rfl, rfl, rfl, rfl⟩

/-- C6: for every state, every flag position `f` in 0..7 and every value `val`,
`set_flag(f, val)` followed by `get_flag(f)` yields 1 when `val` is true (non-zero) and 0
when it is false, and `get_flag(g)` is unchanged for every other position `g ≠ f`. -/
theorem set_flag_get_flag (s : CPU) (f g : Fin 8) (val : Nat) (hg : g ≠ f) :
    get_flag f.val (set_flag f.val val s) = b2i (decide (val ≠ 0)) ∧
    get_flag g.val (set_flag f.val val s) = get_flag g.val s := by
  have hgf : ¬ g.val = f.val := fun h => hg (Fin.ext h)
  constructor
  · rw [get_flag_eq_testBit, set_flag_testBit f.val f.val f.isLt f.isLt, if_pos rfl]
  · rw [get_flag_eq_testBit, get_flag_eq_testBit, set_flag_testBit f.val g.val f.isLt g.isLt,
      if_neg hgf]

/-- Witness for C6: setting the Zero flag of a state with status `0xC3` and reading Zero and
Negative back. -/
theorem set_flag_get_flag_witness :
    (7 : Fin 8) ≠ 1 ∧
    get_flag 1 (set_flag 1 0 busyState) = 0 ∧
    get_flag 7 (set_flag 1 0 busyState) = get_flag 7 busyState :=
  ⟨by decide, set_flag_get_flag busyState 1 7 0 (by decide)⟩

/-! ### The stack -/

theorem stack_push_SP (b : U8) (s : CPU) :
    (stack_push b s).SP.val = if s.SP.val = 0 then 255 else s.SP.val - 1 := by
  have hlt := s.SP.isLt
  unfold stack_push write_byte
  by_cases h : s.SP.val = 0
  · simp [h]
  · simp only [h, if_false, toU8_val]
    omega

theorem stack_pop_SP (s : CPU) :
    (stack_pop s).2.SP.val = if s.SP.val = 255 then 0 else s.SP.val + 1 := by
  have hlt := s.SP.isLt
  unfold stack_pop
  by_cases h : s.SP.val = 255
  · simp [h]
  · simp only [h, if_false, toU8_val]
    omega

/-- The byte returned by `stack_pop()` right after `stack_push(b)` is the byte that the store
held at the zero-page position `SP` before the push: the pop reads `0x00 + SP` while the push
wrote `0x100 + SP`. -/
theorem stack_pop_after_push_reads_zero_page (b : U8) (s : CPU) :
    (stack_pop (stack_push b s)).1 = s.mem.memory (toU16 s.SP.val) := by
  have hlt := s.SP.isLt
  have hsp : (stack_pop (stack_push b s)).2.SP.val = s.SP.val := by
    rw [stack_pop_SP, stack_push_SP]
    by_cases h : s.SP.val = 0
    · simp [h]
    · simp only [h, if_false]
      split <;> omega
  have hread : (stack_pop (stack_push b s)).1 =
      (stack_push b s).mem.memory (toU16 (0x00 + (stack_pop (stack_push b s)).2.SP.val)) := by
    unfold stack_pop
    dsimp only
    split <;> rfl
  rw [hread, hsp]
  have hmem : (stack_push b s).mem.memory =
      fun p => if p = toU16 (0x100 + s.SP.val) then b else s.mem.memory p := by
    unfold stack_push write_byte
    dsimp only
    split <;> rfl
  rw [hmem]
  have hne : toU16 (0x00 + s.SP.val) ≠ toU16 (0x100 + s.SP.val) := by
    intro h
    have h2 := congrArg Fin.val h
    simp only [toU16_val] at h2
    omega
  simp only [hne, if_false]
  congr 1
  simp

/-- C7, evaluated on the code: on the reset state (`SP = 0xFF`, store all zero),
`stack_push(0x42)` writes `0x42` at `0x01FF`, and the `stack_pop()` that follows returns `0x00`,
the byte at `0x00FF`, not `0x42`. -/
theorem stack_push_pop_returns_other_byte :
    (stack_push 0x42 resetState).mem.memory 0x01FF = 0x42 ∧
    (stack_pop (stack_push 0x42 resetState)).1 = 0x00 ∧
    (stack_pop (stack_push 0x42 resetState)).1 ≠ 0x42 := by
  decide

/-- C8: for every byte `b` and every state (every `sp` in 0..255, also `sp = 0x00`, where the
push wraps to `0xFF` and the pop wraps back), `stack_push(b)` followed by `stack_pop()` leaves
`sp` equal to its value before the push. -/
theorem stack_push_pop_restores_SP (b : U8) (s : CPU) :
    (stack_pop (stack_push b s)).2.SP = s.SP ∧
    (s.SP.val = 0x00 → (stack_push b s).SP.val = 0xFF) := by
  have hlt := s.SP.isLt
  constructor
  · apply Fin.ext
    rw [stack_pop_SP, stack_push_SP]
    by_cases h : s.SP.val = 0
    · simp [h]
    · simp only [h, if_false]
      split <;> omega
  · intro h
    rw [stack_push_SP, if_pos h]

/-- Witness for C8 at `sp = 0x00`. -/
theorem stack_push_pop_restores_SP_witness :
    (stack_pop (stack_push 0x42 busyState)).2.SP = busyState.SP ∧
    (stack_push 0x42 busyState).SP.val = 0xFF :=
  ⟨(stack_push_pop_restores_SP 0x42 busyState).1,
   (stack_push_pop_restores_SP 0x42 busyState).2 (by decide)⟩

/-- C9, evaluated on the code: with `JSR $0700` at `0x0600..0x0602` (so `P = 0x0603`) and
`RTS` at `0x0700`, the JSR pushes `0x06`, `0x02` on the stack page and jumps to `0x0700`;
the RTS executed next leaves `pc = 0x0001`, not `0x0603`. -/
theorem jsr_rts_does_not_return :
    fetch_opcode jsrState = 0x20 ∧
    (execute_instruction jsrState).PC = 0x0700 ∧
    fetch_opcode (execute_instruction jsrState) = 0x60 ∧
    (execute_instruction jsrState).mem.memory 0x01FF = 0x06 ∧
    (execute_instruction jsrState).mem.memory 0x01FE = 0x02 ∧
    (execute_instruction (execute_instruction jsrState)).PC = 0x0001 ∧
    (execute_instruction (execute_instruction jsrState)).PC ≠ 0x0603 := by
  decide

/-! ### Branches -/

theorem get_flag_lt_two (f : Nat) (s : CPU) : get_flag f s = 0 ∨ get_flag f s = 1 := by
  unfold get_flag b2i
  split
  · exact Or.inr rfl
  · exact Or.inl rfl

theorem branchSpec_of_clear (f : Nat) (h : U16 → CPU → CPU)
    (hdef : ∀ t s, h t s = if get_flag f s = 0 then { s with PC := t } else s) :
    BranchSpec h (fun s => get_flag f s = 0) := by
  intro s t
  rw [hdef]
  by_cases hc : get_flag f s = 0
  · simp [hc]
  · simp [hc]

theorem branchSpec_of_set (f : Nat) (h : U16 → CPU → CPU)
    (hdef : ∀ t s, h t s = if get_flag f s ≠ 0 then { s with PC := t } else s) :
    BranchSpec h (fun s => get_flag f s = 1) := by
  intro s t
  rw [hdef]
  rcases get_flag_lt_two f s with hc | hc
  · simp [hc]
  · simp [hc]

/-- C10: each of the eight branch handlers, called in any state with any resolved target `t`,
sets `pc = t` exactly when its flag condition is true (BCC: Carry clear, BCS: Carry set,
BEQ: Zero set, BNE: Zero clear, BMI: Negative set, BPL: Negative clear, BVC: Overflow clear,
BVS: Overflow set) and otherwise leaves `pc` as it was; the flags, `a`, `x`, `y`, `sp` and the
memory are unchanged in both cases.  The `pc` it was called with is the one the relative
addressing mode left: the address after the operand byte. -/
theorem branch_handlers :
    BranchSpec OPCODE_BCC (fun s => get_flag CARRY_FLAG s = 0) ∧
    BranchSpec OPCODE_BCS (fun s => get_flag CARRY_FLAG s = 1) ∧
    BranchSpec OPCODE_BEQ (fun s => get_flag ZERO_FLAG s = 1) ∧
    BranchSpec OPCODE_BNE (fun s => get_flag ZERO_FLAG s = 0) ∧
    BranchSpec OPCODE_BMI (fun s => get_flag NEGATIVE_FLAG s = 1) ∧
    BranchSpec OPCODE_BPL (fun s => get_flag NEGATIVE_FLAG s = 0) ∧
    BranchSpec OPCODE_BVC (fun s => get_flag OVERFLOW_FLAG s = 0) ∧
    BranchSpec OPCODE_BVS (fun s => get_flag OVERFLOW_FLAG s = 1) ∧
    ∀ s : CPU, (relative s).2.PC.val = (s.PC.val + 1) % 65536 :=
  ⟨branchSpec_of_clear CARRY_FLAG OPCODE_BCC (fun _ _ => rfl),
   branchSpec_of_set CARRY_FLAG OPCODE_BCS (fun _ _ => rfl),
   branchSpec_of_set ZERO_FLAG OPCODE_BEQ (fun _ _ => rfl),
   branchSpec_of_clear ZERO_FLAG OPCODE_BNE (fun _ _ => rfl),
   branchSpec_of_set NEGATIVE_FLAG OPCODE_BMI (fun _ _ => rfl),
   branchSpec_of_clear NEGATIVE_FLAG OPCODE_BPL (fun _ _ => rfl),
   branchSpec_of_clear OVERFLOW_FLAG OPCODE_BVC (fun _ _ => rfl),
   branchSpec_of_set OVERFLOW_FLAG OPCODE_BVS (fun _ _ => rfl),
   fun _ => rfl⟩

/-! ### Undefined opcodes -/

/-- C3: in every state whose byte at `pc` is an opcode whose handler is `OPCODE_ILLEGAL`, one
fetch-decode-execute step leaves `a`, `x`, `y`, `sp`, the status flags and the memory
unchanged and advances `pc` by exactly 1 (in 16-bit arithmetic); the loop adds that slot's
entry of `cycle_number` to `cycles` (the sum stays an `int` for every `int` budget). -/
theorem illegal_opcode_step (s : CPU)
    (h : code_at (fetch_opcode s) = Handler.OPCODE_ILLEGAL) :
    (execute_instruction s).PC.val = (s.PC.val + 1) % 65536 ∧
    (execute_instruction s).A = s.A ∧ (execute_instruction s).X = s.X ∧
    (execute_instruction s).Y = s.Y ∧ (execute_instruction s).SP = s.SP ∧
    (execute_instruction s).processor_status = s.processor_status ∧
    (execute_instruction s).mem = s.mem ∧
    (∀ (num_cycles cycles : Int) (fuel : Nat), cycles < num_cycles →
      execute_loop num_cycles (fuel + 1) cycles s =
        if INT_MAX < cycles + cycle_number_at (fetch_opcode s) then LoopResult.overflow
        else execute_loop num_cycles fuel (cycles + cycle_number_at (fetch_opcode s))
          (execute_instruction s)) ∧
    (∀ (num_cycles cycles : Int) (fuel : Nat), cycles < num_cycles → num_cycles ≤ INT_MAX →
      execute_loop num_cycles (fuel + 1) cycles s =
        execute_loop num_cycles fuel (cycles + cycle_number_at (fetch_opcode s))
          (execute_instruction s)) := by
  have hm : addressing_mode_at (fetch_opcode s) = Mode.illegal_mode :=
    (catalog_illegal_table (fetch_opcode s)).1.mp h
  have hcost : cycle_number_at (fetch_opcode s) = 1 :=
    (catalog_illegal_table (fetch_opcode s)).2.mp hm
  have hs : execute_instruction s = { s with PC := toU16 (s.PC.val + 1) } := by
    unfold execute_instruction
    simp only [h, hm, Handler.call, Mode.call, illegal_mode, OPCODE_ILLEGAL]
  rw [hs]
  refine ⟨rfl, rfl, rfl, rfl, rfl, rfl, rfl, ?_, ?_⟩
  · intro n c fuel hc
    simp only [execute_loop, hc, if_true, hs]
  · intro n c fuel hc hn
    have hov : ¬ INT_MAX < c + cycle_number_at (fetch_opcode s) := by
      rw [hcost]
      simp only [INT_MAX] at hn ⊢
      omega
    simp only [execute_loop, hc, if_true, hov, if_false, hs]

/-- Witness for C3: the state `illegalState`, whose next opcode byte is `0x02`. -/
theorem illegal_opcode_step_witness :
    code_at (fetch_opcode illegalState) = Handler.OPCODE_ILLEGAL ∧
    (execute_instruction illegalState).PC.val = (illegalState.PC.val + 1) % 65536 ∧
    (execute_instruction illegalState).A = illegalState.A ∧
    (execute_instruction illegalState).mem = illegalState.mem :=
  ⟨by decide,
   (illegal_opcode_step illegalState (by decide)).1,
   (illegal_opcode_step illegalState (by decide)).2.1,
   (illegal_opcode_step illegalState (by decide)).2.2.2.2.2.2.1⟩

/-! ### The execution loop -/

theorem and_128_eq_zero_iff (x : Nat) : x &&& 128 = 0 ↔ x / 128 % 2 = 0 := by
  have h := and_two_pow_eq_zero_iff x 7
  rw [Nat.testBit_to_div_mod] at h
  have h2 : x / 2 ^ 7 % 2 = x / 128 % 2 := rfl
  rw [h2] at h
  rw [show (128 : Nat) = 2 ^ 7 from rfl, h]
  simp

theorem and_128_ne_zero_iff (x : Nat) : x &&& 128 ≠ 0 ↔ x / 128 % 2 = 1 := by
  rw [Ne, and_128_eq_zero_iff]
  omega

theorem and_255_eq_mod (x : Nat) : x &&& 255 = x % 256 :=
  Nat.and_pow_two_sub_one_eq_mod x 8

theorem or_ff00_eq_add (b : Nat) (h : b < 256) : b ||| 0xFF00 = b + 0xFF00 := by
  have h2 := Nat.mul_add_lt_is_or (show b < 2 ^ 8 from h) 255
  have h3 : 2 ^ 8 * 255 = 0xFF00 := rfl
  rw [h3] at h2
  rw [Nat.or_comm, ← h2]
  omega

/-! ### The relative addressing mode -/

/-- C11: for every state, with `b` the operand byte stored at `pc`, the relative addressing
mode advances `pc` by 1 (leaving the rest of the state alone) and returns
`(pc + 1 + s(b)) mod 65536`, where `s(b) = b` for `b < 128` and `s(b) = b - 256` otherwise. -/
theorem relative_target (s : CPU) :
    (relative s).2 = { s with PC := toU16 (s.PC.val + 1) } ∧
    (relative s).2.PC.val = (s.PC.val + 1) % 65536 ∧
    (((relative s).1.val : Nat) : Int) =
      ((s.PC.val : Int) + 1 + signed_byte (read_byte s.PC s).val) % 65536 := by
  refine ⟨rfl, rfl, ?_⟩
  have hb := (read_byte s.PC s).isLt
  have hp := s.PC.isLt
  unfold relative signed_byte
  simp only [toU16_val, BIT_7_MASK]
  generalize (read_byte s.PC s).val = b at hb
  have hb2 : b % 65536 = b := Nat.mod_eq_of_lt (by omega)
  rw [hb2]
  by_cases h7 : b &&& 128 ≠ 0
  · have h8 := (and_128_ne_zero_iff b).mp h7
    rw [if_pos h7]
    simp only [toU16_val, or_ff00_eq_add b hb]
    have : ¬ b < 128 := by omega
    rw [if_neg this]
    push_cast
    omega
  · have h8 := (and_128_eq_zero_iff b).mp (not_not.mp h7)
    rw [if_neg h7]
    have : b < 128 := by omega
    rw [if_pos this]
    simp only [toU16_val, hb2]
    push_cast
    omega

/-! ### Frame and read-back lemmas for `set_flag` -/

@[simp] theorem set_flag_A (f val : Nat) (s : CPU) : (set_flag f val s).A = s.A := by
  unfold set_flag; split <;> rfl

@[simp] theorem set_flag_X (f val : Nat) (s : CPU) : (set_flag f val s).X = s.X := by
  unfold set_flag; split <;> rfl

@[simp] theorem set_flag_Y (f val : Nat) (s : CPU) : (set_flag f val s).Y = s.Y := by
  unfold set_flag; split <;> rfl

@[simp] theorem set_flag_SP (f val : Nat) (s : CPU) : (set_flag f val s).SP = s.SP := by
  unfold set_flag; split <;> rfl

@[simp] theorem set_flag_PC (f val : Nat) (s : CPU) : (set_flag f val s).PC = s.PC := by
  unfold set_flag; split <;> rfl

@[simp] theorem set_flag_mem (f val : Nat) (s : CPU) : (set_flag f val s).mem = s.mem := by
  unfold set_flag; split <;> rfl

@[simp] theorem set_flag_endian (f val : Nat) (s : CPU) :
    (set_flag f val s).is_little_endian = s.is_little_endian := by
  unfold set_flag; split <;> rfl

@[simp] theorem read_byte_set_flag (p : U16) (f val : Nat) (s : CPU) :
    read_byte p (set_flag f val s) = read_byte p s := by
  unfold read_byte; rw [set_flag_mem]

theorem get_flag_set_flag (f g : Nat) (hf : f < 8) (hg : g < 8) (val : Nat) (s : CPU) :
    get_flag g (set_flag f val s) = if g = f then b2i (decide (val ≠ 0)) else get_flag g s := by
  rw [get_flag_eq_testBit, set_flag_testBit f g hf hg, get_flag_eq_testBit]
  by_cases h : g = f
  · simp [h]
  · simp [h]

theorem b2i_eq_one_iff (b : Bool) : b2i b = 1 ↔ b = true := by
  cases b <;> simp [b2i]

theorem b2i_ne_zero_iff (b : Bool) : b2i b ≠ 0 ↔ b = true := by
  cases b <;> simp [b2i]

theorem b2i_get_flag_ne_zero (f : Nat) (s : CPU) :
    b2i (decide (get_flag f s ≠ 0)) = get_flag f s := by
  rcases get_flag_lt_two f s with h | h <;> simp [h, b2i]

/-! ### ADC in binary mode -/

theorem OPCODE_ADC_binary (in_ : U16) (s : CPU) (hD : get_flag DECIMAL_MODE s = 0) :
    OPCODE_ADC in_ s =
      { set_flag ZERO_FLAG (b2i (decide (adc_sum in_ s &&& 0xFF = 0)))
          (set_flag NEGATIVE_FLAG (adc_sum in_ s &&& BIT_7_MASK)
            (set_flag OVERFLOW_FLAG
              (b2i (decide ((s.A.val ^^^ (read_byte in_ s).val) &&& BIT_7_MASK = 0) &&
                    decide ((s.A.val ^^^ adc_sum in_ s) &&& BIT_7_MASK ≠ 0)))
              (set_flag CARRY_FLAG (b2i (decide (adc_sum in_ s > 0xFF))) s)))
        with A := toU8 (adc_sum in_ s &&& 0xFF) } := by
  have hdec : ∀ v, get_flag DECIMAL_MODE (set_flag CARRY_FLAG v s) = 0 := by
    intro v
    rw [get_flag_set_flag CARRY_FLAG DECIMAL_MODE (by decide) (by decide), if_neg (by decide), hD]
  have hsum : (read_byte in_ s).val + s.A.val + b2i (decide (get_flag CARRY_FLAG s ≠ 0)) =
      adc_sum in_ s := by
    rw [b2i_get_flag_ne_zero]
    unfold adc_sum
    omega
  unfold OPCODE_ADC
  simp only [hdec, hsum, ne_eq, not_true_eq_false, decide_False, Bool.false_eq_true, false_and,
    if_false, set_flag_A]

theorem get_flag_with_A (f : Nat) (s : CPU) (a : U8) : get_flag f { s with A := a } = get_flag f s :=
  rfl

theorem b2i_b2i (b : Bool) : b2i (decide (b2i b ≠ 0)) = b2i b := by
  cases b <;> simp [b2i]

theorem xor_and_128_eq_zero_iff (x y : Nat) :
    (x ^^^ y) &&& 128 = 0 ↔ x / 128 % 2 = y / 128 % 2 := by
  have h := and_two_pow_eq_zero_iff (x ^^^ y) 7
  rw [Nat.testBit_xor, Nat.testBit_to_div_mod, Nat.testBit_to_div_mod] at h
  have hx : x / 2 ^ 7 % 2 = x / 128 % 2 := rfl
  have hy : y / 2 ^ 7 % 2 = y / 128 % 2 := rfl
  rw [hx, hy] at h
  rw [show (128 : Nat) = 2 ^ 7 from rfl, h]
  rcases Nat.mod_two_eq_zero_or_one (x / 128) with h1 | h1 <;>
    rcases Nat.mod_two_eq_zero_or_one (y / 128) with h2 | h2 <;> simp [h1, h2]

theorem OPCODE_ADC_binary_flags (in_ : U16) (s : CPU) (hD : get_flag DECIMAL_MODE s = 0) :
    get_flag CARRY_FLAG (OPCODE_ADC in_ s) = b2i (decide (adc_sum in_ s > 0xFF)) ∧
    get_flag ZERO_FLAG (OPCODE_ADC in_ s) = b2i (decide (adc_sum in_ s &&& 0xFF = 0)) ∧
    get_flag NEGATIVE_FLAG (OPCODE_ADC in_ s) = b2i (decide (adc_sum in_ s &&& 128 ≠ 0)) ∧
    get_flag OVERFLOW_FLAG (OPCODE_ADC in_ s) =
      b2i (decide ((s.A.val ^^^ (read_byte in_ s).val) &&& 128 = 0) &&
           decide ((s.A.val ^^^ adc_sum in_ s) &&& 128 ≠ 0)) := by
  rw [OPCODE_ADC_binary in_ s hD]
  simp only [get_flag_with_A]
  refine ⟨?_, ?_, ?_, ?_⟩
  · rw [get_flag_set_flag ZERO_FLAG CARRY_FLAG (by decide) (by decide), if_neg (by decide),
      get_flag_set_flag NEGATIVE_FLAG CARRY_FLAG (by decide) (by decide), if_neg (by decide),
      get_flag_set_flag OVERFLOW_FLAG CARRY_FLAG (by decide) (by decide), if_neg (by decide),
      get_flag_set_flag CARRY_FLAG CARRY_FLAG (by decide) (by decide), if_pos rfl, b2i_b2i]
  · rw [get_flag_set_flag ZERO_FLAG ZERO_FLAG (by decide) (by decide), if_pos rfl, b2i_b2i]
  · rw [get_flag_set_flag ZERO_FLAG NEGATIVE_FLAG (by decide) (by decide), if_neg (by decide),
      get_flag_set_flag NEGATIVE_FLAG NEGATIVE_FLAG (by decide) (by decide), if_pos rfl]
  · rw [get_flag_set_flag ZERO_FLAG OVERFLOW_FLAG (by decide) (by decide), if_neg (by decide),
      get_flag_set_flag NEGATIVE_FLAG OVERFLOW_FLAG (by decide) (by decide), if_neg (by decide),
      get_flag_set_flag OVERFLOW_FLAG OVERFLOW_FLAG (by decide) (by decide), if_pos rfl, b2i_b2i]

/-- C12: with the Decimal flag clear, for every accumulator `a`, operand byte `m` and
carry-in `c`, ADC leaves accumulator `(a + m + c) mod 256`, Carry set iff `a + m + c > 255`,
Zero set iff the new accumulator is 0 and Negative set iff bit 7 of the new accumulator is 1;
with `a = 0xFF`, `m = 0x01`, `c = 1` the accumulator is `0x01`, Carry is set, Zero and Overflow
are clear. -/
theorem adc_binary_result (in_ : U16) (s : CPU) (hD : get_flag DECIMAL_MODE s = 0) :
    (OPCODE_ADC in_ s).A.val = adc_sum in_ s % 256 ∧
    (get_flag CARRY_FLAG (OPCODE_ADC in_ s) = 1 ↔ adc_sum in_ s > 255) ∧
    (get_flag ZERO_FLAG (OPCODE_ADC in_ s) = 1 ↔ (OPCODE_ADC in_ s).A.val = 0) ∧
    (get_flag NEGATIVE_FLAG (OPCODE_ADC in_ s) = 1 ↔ bit7 (OPCODE_ADC in_ s).A.val = 1) ∧
    (s.A.val = 0xFF → (read_byte in_ s).val = 0x01 → get_flag CARRY_FLAG s = 1 →
      (OPCODE_ADC in_ s).A.val = 0x01 ∧ get_flag CARRY_FLAG (OPCODE_ADC in_ s) = 1 ∧
      get_flag ZERO_FLAG (OPCODE_ADC in_ s) = 0 ∧ get_flag OVERFLOW_FLAG (OPCODE_ADC in_ s) = 0) := by
  obtain ⟨hC, hZ, hN, hV⟩ := OPCODE_ADC_binary_flags in_ s hD
  have hA : (OPCODE_ADC in_ s).A.val = adc_sum in_ s % 256 := by
    rw [OPCODE_ADC_binary in_ s hD]
    show (toU8 (adc_sum in_ s &&& 0xFF)).val = _
    rw [toU8_val, and_255_eq_mod]
    omega
  refine ⟨hA, ?_, ?_, ?_, ?_⟩
  · rw [hC, b2i_eq_one_iff, decide_eq_true_iff]
  · rw [hZ, b2i_eq_one_iff, decide_eq_true_iff, hA, and_255_eq_mod]
  · rw [hN, b2i_eq_one_iff, decide_eq_true_iff, hA, and_128_ne_zero_iff]
    unfold bit7
    omega
  · intro ha hm hc
    have hsum : adc_sum in_ s = 0x101 := by
      unfold adc_sum
      rw [ha, hm, hc]
    rw [hA, hC, hZ, hV, hsum, ha, hm]
    decide

/-- C13: with the Decimal flag clear, ADC sets Overflow exactly when `a` and `m` have the same
bit 7 and bit 7 of the 8-bit result differs from that of `a`; and this is exactly when the
two's-complement sum `signed(a) + signed(m) + c` lies outside `[-128, 127]`. -/
theorem adc_overflow (in_ : U16) (s : CPU) (hD : get_flag DECIMAL_MODE s = 0) :
    (get_flag OVERFLOW_FLAG (OPCODE_ADC in_ s) = 1 ↔
      (bit7 s.A.val = bit7 (read_byte in_ s).val ∧
       bit7 (OPCODE_ADC in_ s).A.val ≠ bit7 s.A.val)) ∧
    (get_flag OVERFLOW_FLAG (OPCODE_ADC in_ s) = 1 ↔
      (signed_byte s.A.val + signed_byte (read_byte in_ s).val + (get_flag CARRY_FLAG s : Int) < -128 ∨
       127 < signed_byte s.A.val + signed_byte (read_byte in_ s).val + (get_flag CARRY_FLAG s : Int))) := by
  obtain ⟨_, _, _, hV⟩ := OPCODE_ADC_binary_flags in_ s hD
  have hA : (OPCODE_ADC in_ s).A.val = adc_sum in_ s % 256 := by
    rw [OPCODE_ADC_binary in_ s hD]
    show (toU8 (adc_sum in_ s &&& 0xFF)).val = _
    rw [toU8_val, and_255_eq_mod]
    omega
  have ha := s.A.isLt
  have hm := (read_byte in_ s).isLt
  have hc := get_flag_lt_two CARRY_FLAG s
  have hkey : get_flag OVERFLOW_FLAG (OPCODE_ADC in_ s) = 1 ↔
      (s.A.val / 128 % 2 = (read_byte in_ s).val / 128 % 2 ∧
       ¬ s.A.val / 128 % 2 = adc_sum in_ s / 128 % 2) := by
    rw [hV, b2i_eq_one_iff, Bool.and_eq_true, decide_eq_true_iff, decide_eq_true_iff,
      xor_and_128_eq_zero_iff, Ne, xor_and_128_eq_zero_iff]
  rw [hkey, hA]
  unfold bit7 signed_byte adc_sum
  generalize s.A.val = a at ha
  generalize (read_byte in_ s).val = m at hm
  generalize get_flag CARRY_FLAG s = c at hc
  constructor
  · omega
  · split <;> split <;> omega

/-- Witness for C12: `a = 0xFF`, `m = 0x01`, carry-in 1, Decimal clear. -/
theorem adc_binary_result_witness :
    get_flag DECIMAL_MODE adcState = 0 ∧
    (OPCODE_ADC 0x0010 adcState).A.val = 0x01 ∧
    get_flag CARRY_FLAG (OPCODE_ADC 0x0010 adcState) = 1 ∧
    get_flag ZERO_FLAG (OPCODE_ADC 0x0010 adcState) = 0 ∧
    get_flag OVERFLOW_FLAG (OPCODE_ADC 0x0010 adcState) = 0 :=
  ⟨by decide,
   (adc_binary_result 0x0010 adcState (by decide)).2.2.2.2 (by decide) (by decide) (by decide)⟩

/-- Witness for C13: `0x7F + 0x01` overflows into the sign bit. -/
theorem adc_overflow_witness :
    get_flag DECIMAL_MODE adcOverflowState = 0 ∧
    (get_flag OVERFLOW_FLAG (OPCODE_ADC 0x0010 adcOverflowState) = 1 ↔
      (bit7 adcOverflowState.A.val = bit7 (read_byte 0x0010 adcOverflowState).val ∧
       bit7 (OPCODE_ADC 0x0010 adcOverflowState).A.val ≠ bit7 adcOverflowState.A.val)) ∧
    get_flag OVERFLOW_FLAG (OPCODE_ADC 0x0010 adcOverflowState) = 1 :=
  ⟨by decide, (adc_overflow 0x0010 adcOverflowState (by decide)).1,
   (adc_overflow 0x0010 adcOverflowState (by decide)).2.mpr (Or.inr (by decide))⟩

/-! ### LDA and SBC -/

/-- C14: for every state, with `b` the byte stored at the effective address, LDA sets the
accumulator to `b`, sets Zero iff `b = 0` and Negative iff `b ≥ 0x80`, and leaves every other
flag, `x`, `y`, `sp`, `pc` and the memory unchanged. -/
theorem lda_loads (in_ : U16) (s : CPU) (g : Fin 8)
    (hg : g.val ≠ ZERO_FLAG ∧ g.val ≠ NEGATIVE_FLAG) :
    (OPCODE_LDA in_ s).A = read_byte in_ s ∧
    get_flag ZERO_FLAG (OPCODE_LDA in_ s) = (if (read_byte in_ s).val = 0 then 1 else 0) ∧
    get_flag NEGATIVE_FLAG (OPCODE_LDA in_ s) = (if (read_byte in_ s).val ≥ 0x80 then 1 else 0) ∧
    get_flag g.val (OPCODE_LDA in_ s) = get_flag g.val s ∧
    (OPCODE_LDA in_ s).X = s.X ∧ (OPCODE_LDA in_ s).Y = s.Y ∧ (OPCODE_LDA in_ s).SP = s.SP ∧
    (OPCODE_LDA in_ s).PC = s.PC ∧ (OPCODE_LDA in_ s).mem = s.mem := by
  have hb := (read_byte in_ s).isLt
  have hdef : OPCODE_LDA in_ s =
      { set_flag NEGATIVE_FLAG ((read_byte in_ s).val &&& BIT_7_MASK)
          (set_flag ZERO_FLAG (b2i (decide ((read_byte in_ s).val = 0))) s)
        with A := read_byte in_ s } := rfl
  rw [hdef]
  simp only [get_flag_with_A]
  refine ⟨trivial, ?_, ?_, ?_, ?_, ?_, ?_, ?_, ?_⟩
  rotate_left 3
  · show (set_flag _ _ (set_flag _ _ s)).X = s.X
    simp only [set_flag_X]
  · show (set_flag _ _ (set_flag _ _ s)).Y = s.Y
    simp only [set_flag_Y]
  · show (set_flag _ _ (set_flag _ _ s)).SP = s.SP
    simp only [set_flag_SP]
  · show (set_flag _ _ (set_flag _ _ s)).PC = s.PC
    simp only [set_flag_PC]
  · show (set_flag _ _ (set_flag _ _ s)).mem = s.mem
    simp only [set_flag_mem]
  · rw [get_flag_set_flag NEGATIVE_FLAG ZERO_FLAG (by decide) (by decide), if_neg (by decide),
      get_flag_set_flag ZERO_FLAG ZERO_FLAG (by decide) (by decide), if_pos rfl, b2i_b2i]
    by_cases h : (read_byte in_ s).val = 0 <;> simp [h, b2i]
  · rw [get_flag_set_flag NEGATIVE_FLAG NEGATIVE_FLAG (by decide) (by decide), if_pos rfl]
    by_cases h : (read_byte in_ s).val ≥ 0x80
    · have h2 : (read_byte in_ s).val &&& BIT_7_MASK ≠ 0 :=
        (and_128_ne_zero_iff _).mpr (by omega)
      simp [h, h2, b2i]
    · have h2 : (read_byte in_ s).val &&& BIT_7_MASK = 0 :=
        (and_128_eq_zero_iff _).mpr (by omega)
      simp [h, h2, b2i]
  · rw [get_flag_set_flag NEGATIVE_FLAG g.val (by decide) g.isLt, if_neg hg.2,
      get_flag_set_flag ZERO_FLAG g.val (by decide) g.isLt, if_neg hg.1]

/-- Witness for C14: loading `0x80` (Zero clear, Negative set) with Carry as the other flag. -/
theorem lda_loads_witness :
    ((0 : Fin 8).val ≠ ZERO_FLAG ∧ (0 : Fin 8).val ≠ NEGATIVE_FLAG) ∧
    (OPCODE_LDA 0x0010 loadState).A = 0x80 ∧
    get_flag ZERO_FLAG (OPCODE_LDA 0x0010 loadState) = 0 ∧
    get_flag NEGATIVE_FLAG (OPCODE_LDA 0x0010 loadState) = 1 ∧
    get_flag CARRY_FLAG (OPCODE_LDA 0x0010 loadState) = get_flag CARRY_FLAG loadState :=
  ⟨by decide,
   (lda_loads 0x0010 loadState 0 (by decide)).1,
   (lda_loads 0x0010 loadState 0 (by decide)).2.1,
   (lda_loads 0x0010 loadState 0 (by decide)).2.2.1,
   (lda_loads 0x0010 loadState 0 (by decide)).2.2.2.1⟩

/-- C15: for every state and every operand, the SBC handler stores no result: the
accumulator, `x`, `y`, `sp`, `pc`, the memory and the Carry flag are unchanged, and so is every
flag other than Overflow, Zero and Negative. -/
theorem sbc_stores_nothing (in_ : U16) (s : CPU) (g : Fin 8)
    (hg : g.val ≠ OVERFLOW_FLAG ∧ g.val ≠ ZERO_FLAG ∧ g.val ≠ NEGATIVE_FLAG) :
    (OPCODE_SBC in_ s).A = s.A ∧ (OPCODE_SBC in_ s).X = s.X ∧ (OPCODE_SBC in_ s).Y = s.Y ∧
    (OPCODE_SBC in_ s).SP = s.SP ∧ (OPCODE_SBC in_ s).PC = s.PC ∧
    (OPCODE_SBC in_ s).mem = s.mem ∧
    get_flag CARRY_FLAG (OPCODE_SBC in_ s) = get_flag CARRY_FLAG s ∧
    get_flag g.val (OPCODE_SBC in_ s) = get_flag g.val s := by
  unfold OPCODE_SBC
  simp only [set_flag_A, set_flag_X, set_flag_Y, set_flag_SP, set_flag_PC, set_flag_mem, true_and]
  refine ⟨?_, ?_⟩
  · rw [get_flag_set_flag NEGATIVE_FLAG CARRY_FLAG (by decide) (by decide), if_neg (by decide),
      get_flag_set_flag ZERO_FLAG CARRY_FLAG (by decide) (by decide), if_neg (by decide),
      get_flag_set_flag OVERFLOW_FLAG CARRY_FLAG (by decide) (by decide), if_neg (by decide)]
  · rw [get_flag_set_flag NEGATIVE_FLAG g.val (by decide) g.isLt, if_neg hg.2.2,
      get_flag_set_flag ZERO_FLAG g.val (by decide) g.isLt, if_neg hg.2.1,
      get_flag_set_flag OVERFLOW_FLAG g.val (by decide) g.isLt, if_neg hg.1]

/-- Witness for C15: SBC of `0x80` from `A = 0x12` with Carry, Decimal and Overflow set;
the Decimal flag is the other flag looked at. -/
theorem sbc_stores_nothing_witness :
    ((3 : Fin 8).val ≠ OVERFLOW_FLAG ∧ (3 : Fin 8).val ≠ ZERO_FLAG ∧
      (3 : Fin 8).val ≠ NEGATIVE_FLAG) ∧
    (OPCODE_SBC 0x0010 loadState).A = loadState.A ∧
    get_flag CARRY_FLAG (OPCODE_SBC 0x0010 loadState) = get_flag CARRY_FLAG loadState ∧
    get_flag DECIMAL_MODE (OPCODE_SBC 0x0010 loadState) = get_flag DECIMAL_MODE loadState :=
  ⟨by decide,
   (sbc_stores_nothing 0x0010 loadState 3 (by decide)).1,
   (sbc_stores_nothing 0x0010 loadState 3 (by decide)).2.2.2.2.2.2.1,
   (sbc_stores_nothing 0x0010 loadState 3 (by decide)).2.2.2.2.2.2.2⟩

/-! ### The indirect addressing modes -/

/-- The address returned by `iny` in every state: with `r = (z + 1) mod 256` for the operand
byte `z`, the low byte is read at `r` and the high byte at `r + 1`, and `Y` is added. -/
theorem iny_value (s : CPU) :
    (iny s).1.val =
      ((read_byte (toU16 (((read_byte s.PC s).val + 1) % 256 + 1)) s).val * 256 +
        (read_byte (toU16 (((read_byte s.PC s).val + 1) % 256)) s).val + s.Y.val) % 65536 := by
  have hb := (read_byte s.PC s).isLt
  unfold iny
  simp only [toU16_val, and_255_eq_mod, Nat.shiftLeft_eq]
  have h1 : ((read_byte s.PC s).val + 1) % 256 % 65536 = ((read_byte s.PC s).val + 1) % 256 :=
    Nat.mod_eq_of_lt (by omega)
  rw [h1]
  rfl

/-- The address returned by `inx` in every state: with `r = (z + x) mod 256` for the operand
byte `z`, the low byte is read at `r` and the high byte at `r + 1` (not reduced modulo 256). -/
theorem inx_value (s : CPU) :
    (inx s).1.val =
      ((read_byte (toU16 (((read_byte s.PC s).val + s.X.val) % 256 + 1)) s).val * 256 +
        (read_byte (toU16 (((read_byte s.PC s).val + s.X.val) % 256)) s).val) % 65536 := by
  have hb := (read_byte s.PC s).isLt
  unfold inx
  simp only [toU16_val, and_255_eq_mod, Nat.shiftLeft_eq]
  have h1 : ((read_byte s.PC s).val + s.X.val) % 256 % 65536 =
      ((read_byte s.PC s).val + s.X.val) % 256 := Nat.mod_eq_of_lt (by omega)
  rw [h1]
  rfl

/-- C16, evaluated on the code: with operand byte `z = 0x10`, `y = 0x01` and the pointer
`0x1234` stored at `0x0010`/`0x0011` (and `0xAB` at `0x0012`), the claimed address is
`0x1235`, but `iny` returns `0xAB13`: it reads its pointer at `z + 1` and `z + 2`. -/
theorem iny_reads_pointer_one_byte_late :
    (iny inyState).2.PC = 0x0601 ∧
    iny_claimed inyState = 0x1235 ∧
    (iny inyState).1 = 0xAB13 ∧
    (iny inyState).1.val ≠ iny_claimed inyState := by
  decide

/-- C17, evaluated on the code: with operand byte `0xF0` and `x = 0x0F` (so `r = 0xFF`), the
bytes `0x34` at `0x00FF`, `0x12` at `0x0000` and `0xAB` at `0x0100`, the claimed address is
`0x1234`, but `inx` returns `0xAB34`: the high byte is read at `0x0100`, not at `0x0000`. -/
theorem inx_pointer_read_leaves_page_zero :
    (inx inxState).2.PC = 0x0601 ∧
    inx_claimed inxState = 0x1234 ∧
    (inx inxState).1 = 0xAB34 ∧
    (inx inxState).1.val ≠ inx_claimed inxState := by
  decide

/-! ### ADC in decimal mode -/

/-- C18, evaluated on the code, Decimal flag set, `a = 0x05`, carry-in 0.  With `m = 0x05`
the binary sum is `0x0A`: the claimed accumulator is `0x10`, the code leaves `0x0A` (no `0x06`
added although the low nibble exceeds 9).  With `m = 0x00` the sum is `0x05`: the claimed
accumulator is `0x05`, the code leaves `0x6B` (both `0x06` and `0x60` added).  The tests
`total & 0x0F > 0x09` and `total & 0xF0 > 0x90` are evaluated as `total & 1`. -/
theorem adc_decimal_tests_parity :
    get_flag DECIMAL_MODE bcdState = 1 ∧ get_flag CARRY_FLAG bcdState = 0 ∧
    (adc_decimal_claimed 0x05 0x05 0).1 = 0x10 ∧
    (OPCODE_ADC 0x0010 bcdState).A = 0x0A ∧
    (adc_decimal_claimed 0x05 0x00 0).1 = 0x05 ∧
    (OPCODE_ADC 0x0011 bcdState).A = 0x6B := by
  decide

/-! ### Absolute indirect -/

/-- C19: the absolute-indirect mode computes `W1 = read_word(pc)`, `W2 = read_word(W1 + 1)`
and returns `((W2 << 8) + W1) mod 65536`, advancing `pc` by 1; and for some memory contents
and `pc` this differs from the conventional single-pointer fetch `read_word(read_word(pc))`
(with the word `0x0700` at `pc` and the word `0x1234` at `0x0700`: `0x1900` against `0x1234`). -/
theorem abs_indirect_not_conventional :
    (∀ s : CPU, (abs_indirect s).1.val =
      (((read_word (toU16 ((read_word s.PC s).val + 1)) s).val <<< 8) +
        (read_word s.PC s).val) % 65536) ∧
    (abs_indirect indirectState).1 = 0x1900 ∧
    conventional_indirect indirectState = 0x1234 ∧
    ∃ s : CPU, (abs_indirect s).1 ≠ conventional_indirect s :=
  ⟨fun _ => rfl, by decide, by decide, ⟨indirectState, by decide⟩⟩

/-! ### BRK -/

theorem stack_push_mem (b : U8) (s : CPU) (p : U16) :
    (stack_push b s).mem.memory p =
      if p = toU16 (0x100 + s.SP.val) then b else s.mem.memory p := by
  unfold stack_push write_byte
  dsimp only
  split <;> rfl

theorem stack_push_frame (b : U8) (s : CPU) :
    (stack_push b s).A = s.A ∧ (stack_push b s).X = s.X ∧ (stack_push b s).Y = s.Y ∧
    (stack_push b s).PC = s.PC ∧ (stack_push b s).processor_status = s.processor_status ∧
    (stack_push b s).is_little_endian = s.is_little_endian := by
  unfold stack_push write_byte
  dsimp only
  split <;> exact ⟨rfl, rfl, rfl, rfl, rfl, rfl⟩

theorem stack_address_ne (a b : Nat) (ha : a < 256) (hb : b < 256) (h : a ≠ b) :
    toU16 (0x100 + a) ≠ toU16 (0x100 + b) := by
  intro he
  have h2 := congrArg Fin.val he
  simp only [toU16_val] at h2
  omega

/-- The pushes of the BRK handler: entered with `pc = q`, `sp = s` and status register `p`,
it leaves the high byte of `q + 1` (modulo 65536) at `memory[0x100 + s]`, its low byte at
`memory[0x100 + ((s - 1) mod 256)]`, `p` with the Break bit set at
`memory[0x100 + ((s - 2) mod 256)]`, `sp = (s - 3) mod 256`, the Break flag set, and `a`,
`x`, `y` unchanged.  The offsets `(s - k) mod 256` are written `(s + (256 - k)) % 256`. -/
theorem brk_pushes (in_ : U16) (s : CPU) :
    (OPCODE_BRK in_ s).mem.memory (toU16 (0x100 + s.SP.val)) =
      toU8 ((s.PC.val + 1) % 65536 / 256) ∧
    (OPCODE_BRK in_ s).mem.memory (toU16 (0x100 + (s.SP.val + 255) % 256)) =
      toU8 ((s.PC.val + 1) % 65536 % 256) ∧
    (OPCODE_BRK in_ s).mem.memory (toU16 (0x100 + (s.SP.val + 254) % 256)) =
      toU8 (s.processor_status.val ||| 0x10) ∧
    (OPCODE_BRK in_ s).SP.val = (s.SP.val + 253) % 256 ∧
    get_flag BREAK_COMMAND (OPCODE_BRK in_ s) = 1 ∧
    (OPCODE_BRK in_ s).A = s.A ∧ (OPCODE_BRK in_ s).X = s.X ∧ (OPCODE_BRK in_ s).Y = s.Y := by
  have hsp := s.SP.isLt
  have hpc := s.PC.isLt
  -- the intermediate states of the handler
  let s1 : CPU := { s with PC := toU16 (s.PC.val + 1) }
  let s2 : CPU := set_flag BREAK_COMMAND 1 s1
  let s3 : CPU := stack_push (toU8 ((s2.PC.val >>> 8) &&& 0xFF)) s2
  let s4 : CPU := stack_push (toU8 (s3.PC.val &&& 0xFF)) s3
  let s5 : CPU := stack_push s4.processor_status s4
  have hdef : OPCODE_BRK in_ s = { s5 with PC := read_word (toU16 irqVector) s5 } := rfl
  have hSP2 : s2.SP.val = s.SP.val := by
    show (set_flag BREAK_COMMAND 1 s1).SP.val = _
    rw [set_flag_SP]
  have hSP3 : s3.SP.val = (s.SP.val + 255) % 256 := by
    show (stack_push _ s2).SP.val = _
    rw [stack_push_SP, hSP2]
    split <;> omega
  have hSP4 : s4.SP.val = (s.SP.val + 254) % 256 := by
    show (stack_push _ s3).SP.val = _
    rw [stack_push_SP, hSP3]
    split <;> omega
  have hSP5 : s5.SP.val = (s.SP.val + 253) % 256 := by
    show (stack_push _ s4).SP.val = _
    rw [stack_push_SP, hSP4]
    split <;> omega
  have hPC2 : s2.PC.val = (s.PC.val + 1) % 65536 := by
    show (set_flag BREAK_COMMAND 1 s1).PC.val = _
    rw [set_flag_PC]
    rfl
  have hPC3 : s3.PC.val = (s.PC.val + 1) % 65536 := by
    show (stack_push _ s2).PC.val = _
    rw [(stack_push_frame _ s2).2.2.2.1, hPC2]
  have hPS2 : s2.processor_status = toU8 (s.processor_status.val ||| 0x10) := rfl
  have hPS4 : s4.processor_status = toU8 (s.processor_status.val ||| 0x10) := by
    show (stack_push _ s3).processor_status = _
    rw [(stack_push_frame _ s3).2.2.2.2.1]
    show (stack_push _ s2).processor_status = _
    rw [(stack_push_frame _ s2).2.2.2.2.1, hPS2]
  have hPS5 : s5.processor_status = toU8 (s.processor_status.val ||| 0x10) := by
    show (stack_push _ s4).processor_status = _
    rw [(stack_push_frame _ s4).2.2.2.2.1, hPS4]
  have hm5 : ∀ p, s5.mem.memory p =
      if p = toU16 (0x100 + (s.SP.val + 254) % 256) then toU8 (s.processor_status.val ||| 0x10)
      else if p = toU16 (0x100 + (s.SP.val + 255) % 256) then toU8 ((s.PC.val + 1) % 65536 % 256)
      else if p = toU16 (0x100 + s.SP.val) then toU8 ((s.PC.val + 1) % 65536 / 256)
      else s.mem.memory p := by
    intro p
    show (stack_push s4.processor_status s4).mem.memory p = _
    rw [stack_push_mem, hSP4, hPS4]
    show (if _ then _ else (stack_push (toU8 (s3.PC.val &&& 0xFF)) s3).mem.memory p) = _
    rw [stack_push_mem, hSP3, hPC3]
    show (if _ then _ else if _ then _ else
      (stack_push (toU8 ((s2.PC.val >>> 8) &&& 0xFF)) s2).mem.memory p) = _
    rw [stack_push_mem, hSP2, hPC2, and_255_eq_mod, and_255_eq_mod, Nat.shiftRight_eq_div_pow]
    have e1 : toU8 ((s.PC.val + 1) % 65536 / 2 ^ 8 % 256) = toU8 ((s.PC.val + 1) % 65536 / 256) := by
      apply Fin.ext
      simp only [toU8_val]
      omega
    rw [e1]
    rfl
  have hne1 : toU16 (0x100 + s.SP.val) ≠ toU16 (0x100 + (s.SP.val + 254) % 256) :=
    stack_address_ne _ _ hsp (by omega) (by omega)
  have hne2 : toU16 (0x100 + s.SP.val) ≠ toU16 (0x100 + (s.SP.val + 255) % 256) :=
    stack_address_ne _ _ hsp (by omega) (by omega)
  have hne3 : toU16 (0x100 + (s.SP.val + 255) % 256) ≠ toU16 (0x100 + (s.SP.val + 254) % 256) :=
    stack_address_ne _ _ (by omega) (by omega) (by omega)
  rw [hdef]
  refine ⟨?_, ?_, ?_, hSP5, ?_, ?_, ?_, ?_⟩
  · show s5.mem.memory _ = _
    rw [hm5, if_neg hne1, if_neg hne2, if_pos rfl]
  · show s5.mem.memory _ = _
    rw [hm5, if_neg hne3, if_pos rfl]
  · show s5.mem.memory _ = _
    rw [hm5, if_pos rfl]
  · show get_flag BREAK_COMMAND s5 = 1
    have h5 : get_flag BREAK_COMMAND s5 = get_flag BREAK_COMMAND s2 := by
      unfold get_flag
      rw [hPS5, hPS2]
    rw [h5]
    show get_flag BREAK_COMMAND (set_flag BREAK_COMMAND 1 s1) = 1
    rw [get_flag_set_flag BREAK_COMMAND BREAK_COMMAND (by decide) (by decide), if_pos rfl]
    rfl
  · show (stack_push _ s4).A = s.A
    rw [(stack_push_frame _ s4).1]
    show (stack_push _ s3).A = s.A
    rw [(stack_push_frame _ s3).1]
    show (stack_push _ s2).A = s.A
    rw [(stack_push_frame _ s2).1]
    show (set_flag BREAK_COMMAND 1 s1).A = s.A
    rw [set_flag_A]
  · show (stack_push _ s4).X = s.X
    rw [(stack_push_frame _ s4).2.1]
    show (stack_push _ s3).X = s.X
    rw [(stack_push_frame _ s3).2.1]
    show (stack_push _ s2).X = s.X
    rw [(stack_push_frame _ s2).2.1]
    show (set_flag BREAK_COMMAND 1 s1).X = s.X
    rw [set_flag_X]
  · show (stack_push _ s4).Y = s.Y
    rw [(stack_push_frame _ s4).2.2.1]
    show (stack_push _ s3).Y = s.Y
    rw [(stack_push_frame _ s3).2.2.1]
    show (stack_push _ s2).Y = s.Y
    rw [(stack_push_frame _ s2).2.2.1]
    show (set_flag BREAK_COMMAND 1 s1).Y = s.Y
    rw [set_flag_Y]

set_option maxRecDepth 100000 in
theorem catalog_mode_table : ∀ k : U8,
    (addressing_mode_at k = Mode.relative ↔
      code_at k ∈ [Handler.OPCODE_BCC, Handler.OPCODE_BCS, Handler.OPCODE_BEQ,
        Handler.OPCODE_BNE, Handler.OPCODE_BMI, Handler.OPCODE_BPL, Handler.OPCODE_BVC,
        Handler.OPCODE_BVS]) ∧
    (addressing_mode_at k = Mode.abs_indirect → code_at k = Handler.OPCODE_JMP) ∧
    (addressing_mode_at k = Mode.accumulator ↔
      code_at k ∈ [Handler.OPCODE_ASL_ACC, Handler.OPCODE_LSR_ACC, Handler.OPCODE_ROL_ACC,
        Handler.OPCODE_ROR_ACC]) := by
  decide!

/-- C25: in the catalog, for every opcode byte `k`, `addressing_mode[k]` is `relative` iff
`code[k]` is one of the eight branch handlers; `addressing_mode[k]` is `abs_indirect` only if
`code[k]` is JMP (slot `0x6C` is such a slot); and `addressing_mode[k]` is `accumulator` iff
`code[k]` is one of ASL_ACC, LSR_ACC, ROL_ACC, ROR_ACC. -/
theorem catalog_mode_usage (k : U8) :
    (addressing_mode_at k = Mode.relative ↔
      code_at k ∈ [Handler.OPCODE_BCC, Handler.OPCODE_BCS, Handler.OPCODE_BEQ,
        Handler.OPCODE_BNE, Handler.OPCODE_BMI, Handler.OPCODE_BPL, Handler.OPCODE_BVC,
        Handler.OPCODE_BVS]) ∧
    (addressing_mode_at k = Mode.abs_indirect → code_at k = Handler.OPCODE_JMP) ∧
    (addressing_mode_at k = Mode.accumulator ↔
      code_at k ∈ [Handler.OPCODE_ASL_ACC, Handler.OPCODE_LSR_ACC, Handler.OPCODE_ROL_ACC,
        Handler.OPCODE_ROR_ACC]) ∧
    addressing_mode_at 0x6C = Mode.abs_indirect :=
  ⟨(catalog_mode_table k).1, (catalog_mode_table k).2.1, (catalog_mode_table k).2.2, by decide⟩

/-! ### Words in memory -/

theorem toU32_neg_256 : toU32 (-256) = 2 ^ 32 - (255 + 1) := by decide

theorem and_high_shiftRight (v : Nat) (hv : v < 65536) :
    (v &&& toU32 (-256)) >>> 8 = v / 256 := by
  rw [toU32_neg_256]
  have h8 : v / 256 = v >>> 8 := by rw [Nat.shiftRight_eq_div_pow]
  rw [h8]
  apply Nat.eq_of_testBit_eq
  intro j
  rw [Nat.testBit_shiftRight, Nat.testBit_shiftRight, Nat.testBit_and,
    Nat.testBit_two_pow_sub_succ (by decide : 255 < 2 ^ 32)]
  have h255 : Nat.testBit 255 (8 + j) = false :=
    Nat.testBit_lt_two_pow (Nat.lt_of_lt_of_le (by decide : 255 < 2 ^ 8)
      (Nat.pow_le_pow_right (by decide) (by omega)))
  rw [h255]
  by_cases hj : 8 + j < 32
  · simp [hj]
  · have hv2 : v.testBit (8 + j) = false :=
      Nat.testBit_lt_two_pow (Nat.lt_of_lt_of_le (Nat.lt_of_lt_of_le hv (by decide : 65536 ≤ 2 ^ 32))
        (Nat.pow_le_pow_right (by decide) (by omega)))
    simp [hv2]

theorem or_shiftLeft_eq_add (lo hi : Nat) (hlo : lo < 256) : lo ||| (hi <<< 8) = lo + 256 * hi := by
  have h := Nat.mul_add_lt_is_or (show lo < 2 ^ 8 from hlo) hi
  rw [Nat.shiftLeft_eq, Nat.or_comm, Nat.mul_comm hi, ← h]
  omega

theorem write_byte_mem (p : U16) (b : U8) (s : CPU) (q : U16) :
    (write_byte p b s).mem.memory q = if q = p then b else s.mem.memory q := rfl

/-- C26: for either setting of the endianness flag, every address `p` with `p` and `p + 1`
inside the store and every 16-bit value `v`, `write_word(p, v)` followed by `read_word(p)`
returns `v`, and `write_word` changes no memory byte other than those at `p` and `p + 1`. -/
theorem write_word_read_word (p v : U16) (s : CPU) (hp : p.val + 1 < s.mem.mem_size.val) :
    read_word p (write_word p v s) = v ∧
    ∀ q : U16, q ≠ p → q.val ≠ p.val + 1 →
      (write_word p v s).mem.memory q = s.mem.memory q := by
  have hsz := s.mem.mem_size.isLt
  have hv := v.isLt
  have hp1 : (toU16 (p.val + 1)).val = p.val + 1 := by
    rw [toU16_val]
    exact Nat.mod_eq_of_lt (by omega)
  have hne : p ≠ toU16 (p.val + 1) := by
    intro h
    have h2 := congrArg Fin.val h
    rw [hp1] at h2
    omega
  have hlo : (toU8 (v.val &&& 0xff)).val = v.val % 256 := by
    rw [toU8_val, and_255_eq_mod]
    omega
  have hhi : (toU8 ((v.val &&& toU32 (-256)) >>> 8)).val = v.val / 256 := by
    rw [toU8_val, and_high_shiftRight v.val hv]
    omega
  constructor
  · apply Fin.ext
    unfold read_word write_word read_byte
    simp only [write_byte_mem, if_neg hne, if_true]
    by_cases he : s.is_little_endian ≠ 0
    · have he2 : (write_byte (toU16 (p.val + 1)) (toU8 ((v.val &&& toU32 (-256)) >>> 8))
          (write_byte p (toU8 (v.val &&& 0xff)) s)).is_little_endian ≠ 0 := he
      simp only [he, he2, if_true, ne_eq, not_false_eq_true]
      rw [toU16_val, hlo, hhi, or_shiftLeft_eq_add _ _ (by omega)]
      omega
    · have he2 : ¬ (write_byte (toU16 (p.val + 1)) (toU8 (v.val &&& 0xff))
          (write_byte p (toU8 ((v.val &&& toU32 (-256)) >>> 8)) s)).is_little_endian ≠ 0 := he
      simp only [he, he2, if_false]
      rw [toU16_val, hlo, hhi, or_shiftLeft_eq_add _ _ (by omega)]
      omega
  · intro q hq1 hq2
    have hq3 : q ≠ toU16 (p.val + 1) := by
      intro h
      have h2 := congrArg Fin.val h
      rw [hp1] at h2
      exact hq2 h2
    unfold write_word
    simp only [write_byte_mem, if_neg hq1, if_neg hq3]

/-- Witness for C26: the word `0x1234` written at `0x0010` of the 65535-byte store. -/
theorem write_word_read_word_witness :
    (0x0010 : U16).val + 1 < resetState.mem.mem_size.val ∧
    read_word 0x0010 (write_word 0x0010 0x1234 resetState) = 0x1234 :=
  ⟨by decide, (write_word_read_word 0x0010 0x1234 resetState (by decide)).1⟩

/-! ### Compare instructions -/

theorem toU32_sub_bit7 (r m : Nat) :
    toU32 ((r : Int) - (m : Int)) &&& BIT_7_MASK ≠ 0 ↔
      bit7 (((r : Int) - (m : Int)) % 256).toNat = 1 := by
  rw [and_128_ne_zero_iff]
  unfold toU32 bit7
  omega

theorem compare_core (r m : Nat) (s : CPU) (g : Fin 8)
    (hC : g.val ≠ CARRY_FLAG) (hZ : g.val ≠ ZERO_FLAG) (hN : g.val ≠ NEGATIVE_FLAG) :
    (get_flag CARRY_FLAG (set_flag NEGATIVE_FLAG (toU32 ((r : Int) - (m : Int)) &&& BIT_7_MASK)
      (set_flag CARRY_FLAG (b2i (decide (r ≥ m)))
        (set_flag ZERO_FLAG (b2i (decide (r = m))) s))) = 1 ↔ r ≥ m) ∧
    (get_flag ZERO_FLAG (set_flag NEGATIVE_FLAG (toU32 ((r : Int) - (m : Int)) &&& BIT_7_MASK)
      (set_flag CARRY_FLAG (b2i (decide (r ≥ m)))
        (set_flag ZERO_FLAG (b2i (decide (r = m))) s))) = 1 ↔ r = m) ∧
    (get_flag NEGATIVE_FLAG (set_flag NEGATIVE_FLAG (toU32 ((r : Int) - (m : Int)) &&& BIT_7_MASK)
      (set_flag CARRY_FLAG (b2i (decide (r ≥ m)))
        (set_flag ZERO_FLAG (b2i (decide (r = m))) s))) = 1 ↔
          bit7 (((r : Int) - (m : Int)) % 256).toNat = 1) ∧
    get_flag g.val (set_flag NEGATIVE_FLAG (toU32 ((r : Int) - (m : Int)) &&& BIT_7_MASK)
      (set_flag CARRY_FLAG (b2i (decide (r ≥ m)))
        (set_flag ZERO_FLAG (b2i (decide (r = m))) s))) = get_flag g.val s := by
  refine ⟨?_, ?_, ?_, ?_⟩
  · rw [get_flag_set_flag NEGATIVE_FLAG CARRY_FLAG (by decide) (by decide), if_neg (by decide),
      get_flag_set_flag CARRY_FLAG CARRY_FLAG (by decide) (by decide), if_pos rfl, b2i_b2i,
      b2i_eq_one_iff, decide_eq_true_iff]
  · rw [get_flag_set_flag NEGATIVE_FLAG ZERO_FLAG (by decide) (by decide), if_neg (by decide),
      get_flag_set_flag CARRY_FLAG ZERO_FLAG (by decide) (by decide), if_neg (by decide),
      get_flag_set_flag ZERO_FLAG ZERO_FLAG (by decide) (by decide), if_pos rfl, b2i_b2i,
      b2i_eq_one_iff, decide_eq_true_iff]
  · rw [get_flag_set_flag NEGATIVE_FLAG NEGATIVE_FLAG (by decide) (by decide), if_pos rfl,
      b2i_eq_one_iff, decide_eq_true_iff]
    exact toU32_sub_bit7 r m
  · rw [get_flag_set_flag NEGATIVE_FLAG g.val (by decide) g.isLt, if_neg hN,
      get_flag_set_flag CARRY_FLAG g.val (by decide) g.isLt, if_neg hC,
      get_flag_set_flag ZERO_FLAG g.val (by decide) g.isLt, if_neg hZ]

theorem compare_frame (v1 v2 v3 : Nat) (s : CPU) :
    (set_flag NEGATIVE_FLAG v1 (set_flag CARRY_FLAG v2 (set_flag ZERO_FLAG v3 s))).A = s.A ∧
    (set_flag NEGATIVE_FLAG v1 (set_flag CARRY_FLAG v2 (set_flag ZERO_FLAG v3 s))).X = s.X ∧
    (set_flag NEGATIVE_FLAG v1 (set_flag CARRY_FLAG v2 (set_flag ZERO_FLAG v3 s))).Y = s.Y ∧
    (set_flag NEGATIVE_FLAG v1 (set_flag CARRY_FLAG v2 (set_flag ZERO_FLAG v3 s))).SP = s.SP ∧
    (set_flag NEGATIVE_FLAG v1 (set_flag CARRY_FLAG v2 (set_flag ZERO_FLAG v3 s))).PC = s.PC ∧
    (set_flag NEGATIVE_FLAG v1 (set_flag CARRY_FLAG v2 (set_flag ZERO_FLAG v3 s))).mem = s.mem := by
  simp only [set_flag_A, set_flag_X, set_flag_Y, set_flag_SP, set_flag_PC, set_flag_mem,
    and_self]

theorem OPCODE_CMP_eq (in_ : U16) (s : CPU) :
    OPCODE_CMP in_ s =
      set_flag NEGATIVE_FLAG (toU32 ((s.A.val : Int) - ((read_byte in_ s).val : Int)) &&& BIT_7_MASK)
        (set_flag CARRY_FLAG (b2i (decide (s.A.val ≥ (read_byte in_ s).val)))
          (set_flag ZERO_FLAG (b2i (decide (s.A.val = (read_byte in_ s).val))) s)) := by
  unfold OPCODE_CMP
  simp only [set_flag_A]

theorem OPCODE_CPX_eq (in_ : U16) (s : CPU) :
    OPCODE_CPX in_ s =
      set_flag NEGATIVE_FLAG (toU32 ((s.X.val : Int) - ((read_byte in_ s).val : Int)) &&& BIT_7_MASK)
        (set_flag CARRY_FLAG (b2i (decide (s.X.val ≥ (read_byte in_ s).val)))
          (set_flag ZERO_FLAG (b2i (decide (s.X.val = (read_byte in_ s).val))) s)) := by
  unfold OPCODE_CPX
  simp only [set_flag_X]

theorem OPCODE_CPY_eq (in_ : U16) (s : CPU) :
    OPCODE_CPY in_ s =
      set_flag NEGATIVE_FLAG (toU32 ((s.Y.val : Int) - ((read_byte in_ s).val : Int)) &&& BIT_7_MASK)
        (set_flag CARRY_FLAG (b2i (decide (s.Y.val ≥ (read_byte in_ s).val)))
          (set_flag ZERO_FLAG (b2i (decide (s.Y.val = (read_byte in_ s).val))) s)) := by
  unfold OPCODE_CPY
  simp only [set_flag_Y]

theorem compareSpec_of_eq (h : U16 → CPU → CPU) (reg : CPU → U8)
    (heq : ∀ in_ s, h in_ s =
      set_flag NEGATIVE_FLAG
        (toU32 (((reg s).val : Int) - ((read_byte in_ s).val : Int)) &&& BIT_7_MASK)
        (set_flag CARRY_FLAG (b2i (decide ((reg s).val ≥ (read_byte in_ s).val)))
          (set_flag ZERO_FLAG (b2i (decide ((reg s).val = (read_byte in_ s).val))) s))) :
    CompareSpec h reg := by
  intro in_ s g hC hZ hN
  rw [heq]
  obtain ⟨h1, h2, h3, h4⟩ :=
    compare_core (reg s).val (read_byte in_ s).val s g hC hZ hN
  obtain ⟨f1, f2, f3, f4, f5, f6⟩ := compare_frame
    (toU32 (((reg s).val : Int) - ((read_byte in_ s).val : Int)) &&& BIT_7_MASK)
    (b2i (decide ((reg s).val ≥ (read_byte in_ s).val)))
    (b2i (decide ((reg s).val = (read_byte in_ s).val))) s
  exact ⟨h1, h2, h3, h4, f1, f2, f3, f4, f5, f6⟩

/-- C22: for each of CMP, CPX, CPY with its register value `r` (`a`, `x`, `y`) and every
operand byte `m`: Carry is set iff `r ≥ m`, Zero iff `r = m`, Negative iff bit 7 of
`(r - m) mod 256` is 1, and the registers, the other flags, `pc` and the memory are
unchanged. -/
theorem compare_handlers :
    CompareSpec OPCODE_CMP (fun s => s.A) ∧ CompareSpec OPCODE_CPX (fun s => s.X) ∧
    CompareSpec OPCODE_CPY (fun s => s.Y) :=
  ⟨compareSpec_of_eq OPCODE_CMP (fun s => s.A) OPCODE_CMP_eq,
   compareSpec_of_eq OPCODE_CPX (fun s => s.X) OPCODE_CPX_eq,
   compareSpec_of_eq OPCODE_CPY (fun s => s.Y) OPCODE_CPY_eq⟩

/-- Witness for C22: CMP of the operand `0x80` against `A = 0x12` (`r < m`: Carry and Zero
clear, `(0x12 - 0x80) mod 256 = 0x92`, Negative set), with Decimal as the other flag. -/
theorem compare_handlers_witness :
    (get_flag CARRY_FLAG (OPCODE_CMP 0x0010 loadState) = 1 ↔
      loadState.A.val ≥ (read_byte 0x0010 loadState).val) ∧
    get_flag NEGATIVE_FLAG (OPCODE_CMP 0x0010 loadState) = 1 ∧
    get_flag DECIMAL_MODE (OPCODE_CMP 0x0010 loadState) = get_flag DECIMAL_MODE loadState :=
  ⟨(compare_handlers.1 0x0010 loadState 3 (by decide) (by decide) (by decide)).1,
   (compare_handlers.1 0x0010 loadState 3 (by decide) (by decide) (by decide)).2.2.1.mpr
     (by decide),
   (compare_handlers.1 0x0010 loadState 3 (by decide) (by decide) (by decide)).2.2.2.1⟩

/-! ### Shifts and rotates -/

theorem b2i_and_128 (v : Nat) : b2i (decide (v &&& BIT_7_MASK ≠ 0)) = bit7 v := by
  unfold bit7
  by_cases h : v &&& BIT_7_MASK ≠ 0
  · have h2 := (and_128_ne_zero_iff v).mp h
    simp [h, h2, b2i]
  · have h2 := (and_128_eq_zero_iff v).mp (not_not.mp h)
    simp [not_not.mp h, h2, b2i]

theorem b2i_mod_two (v : Nat) : b2i (decide (v % 2 ≠ 0)) = v % 2 := by
  rcases Nat.mod_two_eq_zero_or_one v with h | h <;> simp [h, b2i]

theorem flags_CZN (cv w : Nat) (s : CPU) :
    get_flag CARRY_FLAG (set_flag NEGATIVE_FLAG (w &&& BIT_7_MASK)
      (set_flag ZERO_FLAG (b2i (decide (w = 0))) (set_flag CARRY_FLAG cv s))) =
        b2i (decide (cv ≠ 0)) ∧
    get_flag ZERO_FLAG (set_flag NEGATIVE_FLAG (w &&& BIT_7_MASK)
      (set_flag ZERO_FLAG (b2i (decide (w = 0))) (set_flag CARRY_FLAG cv s))) =
        (if w = 0 then 1 else 0) ∧
    get_flag NEGATIVE_FLAG (set_flag NEGATIVE_FLAG (w &&& BIT_7_MASK)
      (set_flag ZERO_FLAG (b2i (decide (w = 0))) (set_flag CARRY_FLAG cv s))) = bit7 w := by
  refine ⟨?_, ?_, ?_⟩
  · rw [get_flag_set_flag NEGATIVE_FLAG CARRY_FLAG (by decide) (by decide), if_neg (by decide),
      get_flag_set_flag ZERO_FLAG CARRY_FLAG (by decide) (by decide), if_neg (by decide),
      get_flag_set_flag CARRY_FLAG CARRY_FLAG (by decide) (by decide), if_pos rfl]
  · rw [get_flag_set_flag NEGATIVE_FLAG ZERO_FLAG (by decide) (by decide), if_neg (by decide),
      get_flag_set_flag ZERO_FLAG ZERO_FLAG (by decide) (by decide), if_pos rfl, b2i_b2i]
    by_cases h : w = 0 <;> simp [h, b2i]
  · rw [get_flag_set_flag NEGATIVE_FLAG NEGATIVE_FLAG (by decide) (by decide), if_pos rfl,
      b2i_and_128]

theorem flags_ZNC (cv w : Nat) (s : CPU) :
    get_flag CARRY_FLAG (set_flag CARRY_FLAG cv (set_flag NEGATIVE_FLAG (w &&& BIT_7_MASK)
      (set_flag ZERO_FLAG (b2i (decide (w = 0))) s))) = b2i (decide (cv ≠ 0)) ∧
    get_flag ZERO_FLAG (set_flag CARRY_FLAG cv (set_flag NEGATIVE_FLAG (w &&& BIT_7_MASK)
      (set_flag ZERO_FLAG (b2i (decide (w = 0))) s))) = (if w = 0 then 1 else 0) ∧
    get_flag NEGATIVE_FLAG (set_flag CARRY_FLAG cv (set_flag NEGATIVE_FLAG (w &&& BIT_7_MASK)
      (set_flag ZERO_FLAG (b2i (decide (w = 0))) s))) = bit7 w := by
  refine ⟨?_, ?_, ?_⟩
  · rw [get_flag_set_flag CARRY_FLAG CARRY_FLAG (by decide) (by decide), if_pos rfl]
  · rw [get_flag_set_flag CARRY_FLAG ZERO_FLAG (by decide) (by decide), if_neg (by decide),
      get_flag_set_flag NEGATIVE_FLAG ZERO_FLAG (by decide) (by decide), if_neg (by decide),
      get_flag_set_flag ZERO_FLAG ZERO_FLAG (by decide) (by decide), if_pos rfl, b2i_b2i]
    by_cases h : w = 0 <;> simp [h, b2i]
  · rw [get_flag_set_flag CARRY_FLAG NEGATIVE_FLAG (by decide) (by decide), if_neg (by decide),
      get_flag_set_flag NEGATIVE_FLAG NEGATIVE_FLAG (by decide) (by decide), if_pos rfl,
      b2i_and_128]

theorem get_flag_write_byte (f : Nat) (p : U16) (b : U8) (s : CPU) :
    get_flag f (write_byte p b s) = get_flag f s := rfl

theorem read_byte_write_byte (p : U16) (b : U8) (s : CPU) :
    read_byte p (write_byte p b s) = b := by
  unfold read_byte
  rw [write_byte_mem, if_pos rfl]

theorem set_flag_with_A (f val : Nat) (s : CPU) (a : U8) :
    set_flag f val { s with A := a } = { set_flag f val s with A := a } := by
  unfold set_flag
  split <;> rfl

/-! Values computed by the four operations on a byte `v` with old Carry `c`. -/

theorem asl_val (v : Nat) : (toU8 ((v <<< 1) &&& 0xFF)).val = 2 * v % 256 := by
  rw [toU8_val, and_255_eq_mod, Nat.shiftLeft_eq]
  omega

theorem lsr_val (v : Nat) (hv : v < 256) : (toU8 ((v >>> 1) &&& 0xFF)).val = v / 2 := by
  rw [toU8_val, and_255_eq_mod, Nat.shiftRight_eq_div_pow]
  omega

theorem or_one_eq_add (x : Nat) (hx : x % 2 = 0) : x ||| 0x01 = x + 1 := by
  have h := Nat.mul_add_lt_is_or (show 1 < 2 ^ 1 by decide) (x / 2)
  have h2 : 2 ^ 1 * (x / 2) = x := by omega
  rw [h2] at h
  exact h.symm

theorem or_128_eq_add (x : Nat) (hx : x < 128) : x ||| BIT_7_MASK = x + 128 := by
  have h := Nat.mul_add_lt_is_or (show x < 2 ^ 7 from hx) 1
  rw [Nat.or_comm]
  show 2 ^ 7 * 1 ||| x = x + 128
  omega

theorem rol_val (v c : Nat) (hc : c = 0 ∨ c = 1) :
    (if c ≠ 0 then toU8 ((toU8 ((v <<< 1) &&& 0xFF)).val ||| 0x01)
      else toU8 ((v <<< 1) &&& 0xFF)).val = 2 * v % 256 + c := by
  rcases hc with hc | hc
  · subst hc
    simp only [ne_eq, not_true_eq_false, if_false, asl_val v]
    omega
  · subst hc
    simp only [ne_eq, one_ne_zero, not_false_eq_true, if_true, asl_val v, toU8_val]
    rw [or_one_eq_add _ (by omega)]
    omega

theorem ror_val (v c : Nat) (hv : v < 256) (hc : c = 0 ∨ c = 1) :
    (if c ≠ 0 then toU8 ((toU8 ((v >>> 1) &&& 0xFF)).val ||| BIT_7_MASK)
      else toU8 ((v >>> 1) &&& 0xFF)).val = v / 2 + 128 * c := by
  rcases hc with hc | hc
  · subst hc
    simp only [ne_eq, not_true_eq_false, if_false, lsr_val v hv]
    omega
  · subst hc
    simp only [ne_eq, one_ne_zero, not_false_eq_true, if_true, lsr_val v hv, toU8_val]
    rw [or_128_eq_add _ (by omega)]
    omega

theorem carry7_val (v : Nat) : b2i (decide ((toU8 (v &&& BIT_7_MASK)).val ≠ 0)) = bit7 v := by
  have h : (toU8 (v &&& BIT_7_MASK)).val = v &&& BIT_7_MASK := by
    rw [toU8_val]
    exact Nat.mod_eq_of_lt (Nat.lt_of_le_of_lt Nat.and_le_right (by decide))
  rw [h, b2i_and_128]

theorem carry0_val (v : Nat) : b2i (decide ((toU8 (v &&& 0x01)).val ≠ 0)) = v % 2 := by
  have h : (toU8 (v &&& 0x01)).val = v % 2 := by
    rw [toU8_val, Nat.and_one_is_mod]
    omega
  rw [h, b2i_mod_two]

theorem carry0_val_raw (v : Nat) : b2i (decide (v &&& 0x01 ≠ 0)) = v % 2 := by
  rw [Nat.and_one_is_mod, b2i_mod_two]

theorem OPCODE_ASL_spec : ShiftSpec OPCODE_ASL memOperand (fun v _ => 2 * v % 256) bit7 := by
  intro in_ s
  have heq : OPCODE_ASL in_ s =
      write_byte in_ (toU8 (((read_byte in_ s).val <<< 1) &&& 0xFF))
        (set_flag NEGATIVE_FLAG ((toU8 (((read_byte in_ s).val <<< 1) &&& 0xFF)).val &&& BIT_7_MASK)
          (set_flag ZERO_FLAG (b2i (decide ((toU8 (((read_byte in_ s).val <<< 1) &&& 0xFF)).val = 0)))
            (set_flag CARRY_FLAG ((read_byte in_ s).val &&& BIT_7_MASK) s))) := rfl
  obtain ⟨h1, h2, h3⟩ := flags_CZN ((read_byte in_ s).val &&& BIT_7_MASK)
    (toU8 (((read_byte in_ s).val <<< 1) &&& 0xFF)).val s
  rw [heq]
  unfold memOperand
  rw [read_byte_write_byte]
  simp only [get_flag_write_byte]
  rw [h1, h2, h3, asl_val, b2i_and_128]
  exact ⟨rfl, rfl, rfl, rfl⟩

theorem OPCODE_LSR_spec : ShiftSpec OPCODE_LSR memOperand (fun v _ => v / 2) (fun v => v % 2) := by
  intro in_ s
  have hv := (read_byte in_ s).isLt
  have heq : OPCODE_LSR in_ s =
      write_byte in_ (toU8 (((read_byte in_ s).val >>> 1) &&& 0xFF))
        (set_flag NEGATIVE_FLAG ((toU8 (((read_byte in_ s).val >>> 1) &&& 0xFF)).val &&& BIT_7_MASK)
          (set_flag ZERO_FLAG (b2i (decide ((toU8 (((read_byte in_ s).val >>> 1) &&& 0xFF)).val = 0)))
            (set_flag CARRY_FLAG ((read_byte in_ s).val &&& 0x01) s))) := rfl
  obtain ⟨h1, h2, h3⟩ := flags_CZN ((read_byte in_ s).val &&& 0x01)
    (toU8 (((read_byte in_ s).val >>> 1) &&& 0xFF)).val s
  rw [heq]
  unfold memOperand
  rw [read_byte_write_byte]
  simp only [get_flag_write_byte]
  rw [h1, h2, h3, lsr_val _ hv, carry0_val_raw]
  exact ⟨rfl, rfl, rfl, rfl⟩

theorem OPCODE_ROL_spec :
    ShiftSpec OPCODE_ROL memOperand (fun v c => 2 * v % 256 + c) bit7 := by
  intro in_ s
  have hc := get_flag_lt_two CARRY_FLAG s
  have heq : OPCODE_ROL in_ s =
      write_byte in_
        (if get_flag CARRY_FLAG s ≠ 0 then
          toU8 ((toU8 (((read_byte in_ s).val <<< 1) &&& 0xFF)).val ||| 0x01)
         else toU8 (((read_byte in_ s).val <<< 1) &&& 0xFF))
        (set_flag CARRY_FLAG (toU8 ((read_byte in_ s).val &&& BIT_7_MASK)).val
          (set_flag NEGATIVE_FLAG
            ((if get_flag CARRY_FLAG s ≠ 0 then
                toU8 ((toU8 (((read_byte in_ s).val <<< 1) &&& 0xFF)).val ||| 0x01)
              else toU8 (((read_byte in_ s).val <<< 1) &&& 0xFF)).val &&& BIT_7_MASK)
            (set_flag ZERO_FLAG
              (b2i (decide ((if get_flag CARRY_FLAG s ≠ 0 then
                toU8 ((toU8 (((read_byte in_ s).val <<< 1) &&& 0xFF)).val ||| 0x01)
              else toU8 (((read_byte in_ s).val <<< 1) &&& 0xFF)).val = 0))) s))) := rfl
  obtain ⟨h1, h2, h3⟩ := flags_ZNC (toU8 ((read_byte in_ s).val &&& BIT_7_MASK)).val
    (if get_flag CARRY_FLAG s ≠ 0 then
        toU8 ((toU8 (((read_byte in_ s).val <<< 1) &&& 0xFF)).val ||| 0x01)
      else toU8 (((read_byte in_ s).val <<< 1) &&& 0xFF)).val s
  rw [heq]
  unfold memOperand
  rw [read_byte_write_byte]
  simp only [get_flag_write_byte]
  rw [h1, h2, h3, rol_val _ _ hc, carry7_val]
  exact ⟨rfl, rfl, rfl, rfl⟩

theorem OPCODE_ROR_spec :
    ShiftSpec OPCODE_ROR memOperand (fun v c => v / 2 + 128 * c) (fun v => v % 2) := by
  intro in_ s
  have hv := (read_byte in_ s).isLt
  have hc := get_flag_lt_two CARRY_FLAG s
  have heq : OPCODE_ROR in_ s =
      write_byte in_
        (if get_flag CARRY_FLAG s ≠ 0 then
          toU8 ((toU8 (((read_byte in_ s).val >>> 1) &&& 0xFF)).val ||| BIT_7_MASK)
         else toU8 (((read_byte in_ s).val >>> 1) &&& 0xFF))
        (set_flag CARRY_FLAG (toU8 ((read_byte in_ s).val &&& 0x01)).val
          (set_flag NEGATIVE_FLAG
            ((if get_flag CARRY_FLAG s ≠ 0 then
                toU8 ((toU8 (((read_byte in_ s).val >>> 1) &&& 0xFF)).val ||| BIT_7_MASK)
              else toU8 (((read_byte in_ s).val >>> 1) &&& 0xFF)).val &&& BIT_7_MASK)
            (set_flag ZERO_FLAG
              (b2i (decide ((if get_flag CARRY_FLAG s ≠ 0 then
                toU8 ((toU8 (((read_byte in_ s).val >>> 1) &&& 0xFF)).val ||| BIT_7_MASK)
              else toU8 (((read_byte in_ s).val >>> 1) &&& 0xFF)).val = 0))) s))) := rfl
  obtain ⟨h1, h2, h3⟩ := flags_ZNC (toU8 ((read_byte in_ s).val &&& 0x01)).val
    (if get_flag CARRY_FLAG s ≠ 0 then
        toU8 ((toU8 (((read_byte in_ s).val >>> 1) &&& 0xFF)).val ||| BIT_7_MASK)
      else toU8 (((read_byte in_ s).val >>> 1) &&& 0xFF)).val s
  rw [heq]
  unfold memOperand
  rw [read_byte_write_byte]
  simp only [get_flag_write_byte]
  rw [h1, h2, h3, ror_val _ _ hv hc, carry0_val]
  exact ⟨rfl, rfl, rfl, rfl⟩

theorem OPCODE_ASL_ACC_eq (in_ : U16) (s : CPU) :
    OPCODE_ASL_ACC in_ s =
      { set_flag NEGATIVE_FLAG ((toU8 ((s.A.val <<< 1) &&& 0xFF)).val &&& BIT_7_MASK)
          (set_flag ZERO_FLAG (b2i (decide ((toU8 ((s.A.val <<< 1) &&& 0xFF)).val = 0)))
            (set_flag CARRY_FLAG (s.A.val &&& BIT_7_MASK) s))
        with A := toU8 ((s.A.val <<< 1) &&& 0xFF) } := by
  unfold OPCODE_ASL_ACC
  simp only [set_flag_A, set_flag_with_A]

theorem OPCODE_LSR_ACC_eq (in_ : U16) (s : CPU) :
    OPCODE_LSR_ACC in_ s =
      { set_flag NEGATIVE_FLAG ((toU8 ((s.A.val >>> 1) &&& 0xFF)).val &&& BIT_7_MASK)
          (set_flag ZERO_FLAG (b2i (decide ((toU8 ((s.A.val >>> 1) &&& 0xFF)).val = 0)))
            (set_flag CARRY_FLAG (s.A.val &&& 0x01) s))
        with A := toU8 ((s.A.val >>> 1) &&& 0xFF) } := by
  unfold OPCODE_LSR_ACC
  simp only [set_flag_A, set_flag_with_A]

theorem OPCODE_ASL_ACC_spec :
    ShiftSpec OPCODE_ASL_ACC accOperand (fun v _ => 2 * v % 256) bit7 := by
  intro in_ s
  obtain ⟨h1, h2, h3⟩ := flags_CZN (s.A.val &&& BIT_7_MASK)
    (toU8 ((s.A.val <<< 1) &&& 0xFF)).val s
  rw [OPCODE_ASL_ACC_eq]
  unfold accOperand
  simp only [get_flag_with_A]
  rw [h1, h2, h3, asl_val, b2i_and_128]
  exact ⟨rfl, rfl, rfl, rfl⟩

theorem OPCODE_LSR_ACC_spec :
    ShiftSpec OPCODE_LSR_ACC accOperand (fun v _ => v / 2) (fun v => v % 2) := by
  intro in_ s
  have hv := s.A.isLt
  obtain ⟨h1, h2, h3⟩ := flags_CZN (s.A.val &&& 0x01)
    (toU8 ((s.A.val >>> 1) &&& 0xFF)).val s
  rw [OPCODE_LSR_ACC_eq]
  unfold accOperand
  simp only [get_flag_with_A]
  rw [h1, h2, h3, lsr_val _ hv, carry0_val_raw]
  exact ⟨rfl, rfl, rfl, rfl⟩

theorem OPCODE_ROL_ACC_eq (in_ : U16) (s : CPU) :
    OPCODE_ROL_ACC in_ s =
      { set_flag CARRY_FLAG (toU8 (s.A.val &&& BIT_7_MASK)).val
          (set_flag NEGATIVE_FLAG
            ((if get_flag CARRY_FLAG s ≠ 0 then toU8 ((toU8 ((s.A.val <<< 1) &&& 0xFF)).val ||| 0x01)
              else toU8 ((s.A.val <<< 1) &&& 0xFF)).val &&& BIT_7_MASK)
            (set_flag ZERO_FLAG
              (b2i (decide ((if get_flag CARRY_FLAG s ≠ 0 then
                  toU8 ((toU8 ((s.A.val <<< 1) &&& 0xFF)).val ||| 0x01)
                else toU8 ((s.A.val <<< 1) &&& 0xFF)).val = 0))) s))
        with A := if get_flag CARRY_FLAG s ≠ 0 then
            toU8 ((toU8 ((s.A.val <<< 1) &&& 0xFF)).val ||| 0x01)
          else toU8 ((s.A.val <<< 1) &&& 0xFF) } := by
  unfold OPCODE_ROL_ACC
  simp only [get_flag_with_A]
  by_cases hc : get_flag CARRY_FLAG s ≠ 0
  · simp only [hc, if_true, ne_eq, not_false_eq_true, set_flag_A, set_flag_with_A]
  · simp only [hc, if_false, ne_eq, not_false_eq_true, set_flag_A, set_flag_with_A]

theorem OPCODE_ROR_ACC_eq (in_ : U16) (s : CPU) :
    OPCODE_ROR_ACC in_ s =
      { set_flag CARRY_FLAG (toU8 (s.A.val &&& 0x01)).val
          (set_flag NEGATIVE_FLAG
            ((if get_flag CARRY_FLAG s ≠ 0 then
                toU8 ((toU8 ((s.A.val >>> 1) &&& 0xFF)).val ||| BIT_7_MASK)
              else toU8 ((s.A.val >>> 1) &&& 0xFF)).val &&& BIT_7_MASK)
            (set_flag ZERO_FLAG
              (b2i (decide ((if get_flag CARRY_FLAG s ≠ 0 then
                  toU8 ((toU8 ((s.A.val >>> 1) &&& 0xFF)).val ||| BIT_7_MASK)
                else toU8 ((s.A.val >>> 1) &&& 0xFF)).val = 0))) s))
        with A := if get_flag CARRY_FLAG s ≠ 0 then
            toU8 ((toU8 ((s.A.val >>> 1) &&& 0xFF)).val ||| BIT_7_MASK)
          else toU8 ((s.A.val >>> 1) &&& 0xFF) } := by
  unfold OPCODE_ROR_ACC
  simp only [get_flag_with_A]
  by_cases hc : get_flag CARRY_FLAG s ≠ 0
  · simp only [hc, if_true, ne_eq, not_false_eq_true, set_flag_A, set_flag_with_A]
  · simp only [hc, if_false, ne_eq, not_false_eq_true, set_flag_A, set_flag_with_A]

theorem OPCODE_ROL_ACC_spec :
    ShiftSpec OPCODE_ROL_ACC accOperand (fun v c => 2 * v % 256 + c) bit7 := by
  intro in_ s
  have hc := get_flag_lt_two CARRY_FLAG s
  obtain ⟨h1, h2, h3⟩ := flags_ZNC (toU8 (s.A.val &&& BIT_7_MASK)).val
    (if get_flag CARRY_FLAG s ≠ 0 then toU8 ((toU8 ((s.A.val <<< 1) &&& 0xFF)).val ||| 0x01)
      else toU8 ((s.A.val <<< 1) &&& 0xFF)).val s
  rw [OPCODE_ROL_ACC_eq]
  unfold accOperand
  simp only [get_flag_with_A]
  rw [h1, h2, h3, rol_val _ _ hc, carry7_val]
  exact ⟨rfl, rfl, rfl, rfl⟩

theorem OPCODE_ROR_ACC_spec :
    ShiftSpec OPCODE_ROR_ACC accOperand (fun v c => v / 2 + 128 * c) (fun v => v % 2) := by
  intro in_ s
  have hv := s.A.isLt
  have hc := get_flag_lt_two CARRY_FLAG s
  obtain ⟨h1, h2, h3⟩ := flags_ZNC (toU8 (s.A.val &&& 0x01)).val
    (if get_flag CARRY_FLAG s ≠ 0 then toU8 ((toU8 ((s.A.val >>> 1) &&& 0xFF)).val ||| BIT_7_MASK)
      else toU8 ((s.A.val >>> 1) &&& 0xFF)).val s
  rw [OPCODE_ROR_ACC_eq]
  unfold accOperand
  simp only [get_flag_with_A]
  rw [h1, h2, h3, ror_val _ _ hv hc, carry0_val]
  exact ⟨rfl, rfl, rfl, rfl⟩

/-- C23: for every operand value `v` (the memory byte at the effective address for ASL, LSR,
ROL, ROR; the accumulator for the `_ACC` variants) and old Carry `c`: ASL yields
`(2v) mod 256` with new Carry = bit 7 of `v`; LSR yields `v div 2` with new Carry = bit 0 of
`v`; ROL yields `((2v) mod 256) + c` with new Carry = bit 7 of `v`; ROR yields
`(v div 2) + 128c` with new Carry = bit 0 of `v`; in every case Zero and Negative are set from
the result and the result is written back to the same operand. -/
theorem shift_rotate_handlers :
    ShiftSpec OPCODE_ASL memOperand (fun v _ => 2 * v % 256) bit7 ∧
    ShiftSpec OPCODE_ASL_ACC accOperand (fun v _ => 2 * v % 256) bit7 ∧
    ShiftSpec OPCODE_LSR memOperand (fun v _ => v / 2) (fun v => v % 2) ∧
    ShiftSpec OPCODE_LSR_ACC accOperand (fun v _ => v / 2) (fun v => v % 2) ∧
    ShiftSpec OPCODE_ROL memOperand (fun v c => 2 * v % 256 + c) bit7 ∧
    ShiftSpec OPCODE_ROL_ACC accOperand (fun v c => 2 * v % 256 + c) bit7 ∧
    ShiftSpec OPCODE_ROR memOperand (fun v c => v / 2 + 128 * c) (fun v => v % 2) ∧
    ShiftSpec OPCODE_ROR_ACC accOperand (fun v c => v / 2 + 128 * c) (fun v => v % 2) :=
  ⟨OPCODE_ASL_spec, OPCODE_ASL_ACC_spec, OPCODE_LSR_spec, OPCODE_LSR_ACC_spec,
   OPCODE_ROL_spec, OPCODE_ROL_ACC_spec, OPCODE_ROR_spec, OPCODE_ROR_ACC_spec⟩

/-- C27: for every accumulator value and every Carry value, the ROL-accumulator handler
followed by the ROR-accumulator handler restores both the accumulator and the Carry flag, and
likewise ROR-accumulator followed by ROL-accumulator. -/
theorem rol_ror_acc_inverse (i1 i2 : U16) (s : CPU) :
    (OPCODE_ROR_ACC i2 (OPCODE_ROL_ACC i1 s)).A = s.A ∧
    get_flag CARRY_FLAG (OPCODE_ROR_ACC i2 (OPCODE_ROL_ACC i1 s)) = get_flag CARRY_FLAG s ∧
    (OPCODE_ROL_ACC i2 (OPCODE_ROR_ACC i1 s)).A = s.A ∧
    get_flag CARRY_FLAG (OPCODE_ROL_ACC i2 (OPCODE_ROR_ACC i1 s)) = get_flag CARRY_FLAG s := by
  have hv := s.A.isLt
  have hc := get_flag_lt_two CARRY_FLAG s
  obtain ⟨l1, l2, _, _⟩ := OPCODE_ROL_ACC_spec i1 s
  obtain ⟨r1, r2, _, _⟩ := OPCODE_ROR_ACC_spec i1 s
  obtain ⟨lr1, lr2, _, _⟩ := OPCODE_ROR_ACC_spec i2 (OPCODE_ROL_ACC i1 s)
  obtain ⟨rl1, rl2, _, _⟩ := OPCODE_ROL_ACC_spec i2 (OPCODE_ROR_ACC i1 s)
  unfold accOperand at l1 r1 lr1 rl1 l2 r2 lr2 rl2
  unfold bit7 at l2 rl2
  simp only at l1 r1 lr1 rl1 l2 r2 lr2 rl2
  refine ⟨Fin.ext ?_, ?_, Fin.ext ?_, ?_⟩
  · rw [lr1, l1, l2]; omega
  · rw [lr2, l1]; omega
  · rw [rl1, r1, r2]; omega
  · rw [rl2, r1]; omega

/-! ### JSR as a whole instruction -/

/-- C21: in every state with the JSR opcode `0x20` at address `P = pc`, operand word `T`
(read at `P + 1`) and stack pointer `s`, one step leaves `pc = T`, `sp = (s - 2) mod 256`,
`memory[0x100 + s]` = high byte of `P + 2` and `memory[0x100 + ((s - 1) mod 256)]` = low byte
of `P + 2` (addresses taken modulo 65536), with the flags, `a`, `x`, `y` unchanged and no
other memory byte written.  The offsets `(s - k) mod 256` are written `(s + (256 - k)) % 256`. -/
theorem jsr_step (s : CPU) (h : fetch_opcode s = 0x20) :
    (execute_instruction s).PC = read_word (toU16 (s.PC.val + 1)) s ∧
    (execute_instruction s).SP.val = (s.SP.val + 254) % 256 ∧
    (execute_instruction s).mem.memory (toU16 (0x100 + s.SP.val)) =
      toU8 ((s.PC.val + 2) % 65536 / 256) ∧
    (execute_instruction s).mem.memory (toU16 (0x100 + (s.SP.val + 255) % 256)) =
      toU8 ((s.PC.val + 2) % 65536 % 256) ∧
    (execute_instruction s).processor_status = s.processor_status ∧
    (execute_instruction s).A = s.A ∧ (execute_instruction s).X = s.X ∧
    (execute_instruction s).Y = s.Y ∧
    ∀ q : U16, q ≠ toU16 (0x100 + s.SP.val) → q ≠ toU16 (0x100 + (s.SP.val + 255) % 256) →
      (execute_instruction s).mem.memory q = s.mem.memory q := by
  have hsp := s.SP.isLt
  have hpc := s.PC.isLt
  have hcode : code_at 0x20 = Handler.OPCODE_JSR := by decide
  have hmode : addressing_mode_at 0x20 = Mode.absolute := by decide
  -- the intermediate states of the step
  let s1 : CPU := { s with PC := toU16 (s.PC.val + 1) }
  let s2 : CPU := { s1 with PC := toU16 (s1.PC.val + 2) }
  let j1 : CPU := { s2 with PC := toU16 (toU32 ((s2.PC.val : Int) - 1)) }
  let j2 : CPU := stack_push (toU8 ((j1.PC.val >>> 8) &&& 0xFF)) j1
  let j3 : CPU := stack_push (toU8 (j2.PC.val &&& 0xFF)) j2
  have hstep : execute_instruction s = { j3 with PC := read_word (toU16 (s.PC.val + 1)) s } := by
    unfold execute_instruction
    simp only [h, hcode, hmode, Handler.call, Mode.call]
    rfl
  have hPC1 : j1.PC.val = (s.PC.val + 2) % 65536 := by
    show (toU16 (toU32 ((((toU16 ((toU16 (s.PC.val + 1)).val + 2)).val : Nat) : Int) - 1))).val = _
    simp only [toU16_val]
    unfold toU32
    omega
  have hPC2 : j2.PC.val = (s.PC.val + 2) % 65536 := by
    show (stack_push _ j1).PC.val = _
    rw [(stack_push_frame _ j1).2.2.2.1, hPC1]
  have hSP2 : j2.SP.val = (s.SP.val + 255) % 256 := by
    show (stack_push _ j1).SP.val = _
    rw [stack_push_SP]
    show (if s.SP.val = 0 then 255 else s.SP.val - 1) = _
    split <;> omega
  have hSP3 : j3.SP.val = (s.SP.val + 254) % 256 := by
    show (stack_push _ j2).SP.val = _
    rw [stack_push_SP, hSP2]
    split <;> omega
  have hm3 : ∀ q, j3.mem.memory q =
      if q = toU16 (0x100 + (s.SP.val + 255) % 256) then toU8 ((s.PC.val + 2) % 65536 % 256)
      else if q = toU16 (0x100 + s.SP.val) then toU8 ((s.PC.val + 2) % 65536 / 256)
      else s.mem.memory q := by
    intro q
    show (stack_push (toU8 (j2.PC.val &&& 0xFF)) j2).mem.memory q = _
    rw [stack_push_mem, hSP2, hPC2]
    show (if _ then _ else (stack_push (toU8 ((j1.PC.val >>> 8) &&& 0xFF)) j1).mem.memory q) = _
    rw [stack_push_mem, hPC1, and_255_eq_mod, and_255_eq_mod, Nat.shiftRight_eq_div_pow]
    have e1 : toU8 ((s.PC.val + 2) % 65536 / 2 ^ 8 % 256) = toU8 ((s.PC.val + 2) % 65536 / 256) := by
      apply Fin.ext
      simp only [toU8_val]
      omega
    rw [e1]
  have hne : toU16 (0x100 + s.SP.val) ≠ toU16 (0x100 + (s.SP.val + 255) % 256) :=
    stack_address_ne _ _ hsp (by omega) (by omega)
  rw [hstep]
  refine ⟨rfl, hSP3, ?_, ?_, ?_, ?_, ?_, ?_, ?_⟩
  · show j3.mem.memory _ = _
    rw [hm3, if_neg hne, if_pos rfl]
  · show j3.mem.memory _ = _
    rw [hm3, if_pos rfl]
  · show (stack_push _ j2).processor_status = _
    rw [(stack_push_frame _ j2).2.2.2.2.1]
    show (stack_push _ j1).processor_status = _
    rw [(stack_push_frame _ j1).2.2.2.2.1]
  · show (stack_push _ j2).A = _
    rw [(stack_push_frame _ j2).1]
    show (stack_push _ j1).A = _
    rw [(stack_push_frame _ j1).1]
  · show (stack_push _ j2).X = _
    rw [(stack_push_frame _ j2).2.1]
    show (stack_push _ j1).X = _
    rw [(stack_push_frame _ j1).2.1]
  · show (stack_push _ j2).Y = _
    rw [(stack_push_frame _ j2).2.2.1]
    show (stack_push _ j1).Y = _
    rw [(stack_push_frame _ j1).2.2.1]
  · intro q hq1 hq2
    show j3.mem.memory q = _
    rw [hm3, if_neg hq2, if_neg hq1]

/-- Witness for C21: the state `jsrState`, with `JSR $0700` at `0x0600` and `sp = 0xFF`. -/
theorem jsr_step_witness :
    fetch_opcode jsrState = 0x20 ∧
    (execute_instruction jsrState).PC = read_word (toU16 (jsrState.PC.val + 1)) jsrState ∧
    (execute_instruction jsrState).SP.val = (jsrState.SP.val + 254) % 256 ∧
    (execute_instruction jsrState).mem.memory (toU16 (0x100 + jsrState.SP.val)) =
      toU8 ((jsrState.PC.val + 2) % 65536 / 256) :=
  ⟨by decide, (jsr_step jsrState (by decide)).1, (jsr_step jsrState (by decide)).2.1,
   (jsr_step jsrState (by decide)).2.2.1⟩

/-! ### The program counter and the size of the store -/

/-- C24, evaluated on the code: in the reference configuration (a 65535-byte store) with the
program image `4C FF FF` (`JMP $FFFF`), the state after `reset()` runs one instruction under
`execute(1)` and ends with `pc = 65535`, which is not below the size of the store. -/
theorem pc_leaves_store :
    reset jmpState = jmpState ∧
    jmpState.mem.mem_size.val = 65535 ∧
    fetch_opcode jmpState = 0x4C ∧
    (execute_instruction jmpState).PC.val = 65535 ∧
    (execute 1 1 jmpState).result.map (fun r => r.2.PC.val) = some 65535 ∧
    ¬ (execute_instruction jmpState).PC.val < (execute_instruction jmpState).mem.mem_size.val :=
  ⟨rfl, by decide, by decide, by decide, by decide, by decide⟩

end Emu6502
